import Mathlib

/-!
# Cerberus: verification of the capture pipeline and aggregator

A shallow embedding of the Cerberus network monitor (Go + eBPF) into Lean 4.
Bytes are modelled as `Nat` values below 256, Go byte arrays as `List Nat`,
Go strings as Lean `String` values whose characters are the bytes mapped
through `Char.ofNat` (injective on 0..255, so equality and prefix tests agree
with Go's byte-wise semantics on these strings), `time.Time` values as `Nat`
instants, and Go maps as association lists.
-/

namespace Cerberus

/-- Little-endian serialisation of a 16-bit value, as laid out in memory by
the packed `struct network_event` on the little-endian targets the eBPF
object is built for. -/
def le16 (n : Nat) : List Nat := [n % 256, n / 256 % 256]

/-- Little-endian serialisation of a 32-bit value. -/
def le32 (n : Nat) : List Nat :=
  [n % 256, n / 256 % 256, n / 65536 % 256, n / 16777216 % 256]

/-- Little-endian decoding of a byte list, least significant byte first. -/
def decodeLE (bs : List Nat) : Nat := bs.foldr (fun b acc => b + 256 * acc) 0

/-- `data[off]`: the byte of `data` at offset `off` (0 when out of range). -/
def readU8 (data : List Nat) (off : Nat) : Nat := (data.drop off).headD 0

/-- `binary.LittleEndian.Uint16(data[off : off+2])`. -/
def readLE16 (data : List Nat) (off : Nat) : Nat :=
  decodeLE ((data.drop off).take 2)

/-- `binary.LittleEndian.Uint32(data[off : off+4])`. -/
def readLE32 (data : List Nat) (off : Nat) : Nat :=
  decodeLE ((data.drop off).take 4)

/-- `data[off : off+n]`: a slice of `n` bytes starting at offset `off`. -/
def readBytes (data : List Nat) (off n : Nat) : List Nat :=
  (data.drop off).take n

/-- `models.NetworkEvent` (internal/models/types.go): the decoded form of the
75-byte wire record shared with the kernel classifier. -/
structure NetworkEvent where
  eventType : Nat
  srcMac : List Nat
  dstMac : List Nat
  srcIP : Nat
  dstIP : Nat
  srcPort : Nat
  dstPort : Nat
  protocol : Nat
  tcpFlags : Nat
  arpOp : Nat
  arpSha : List Nat
  arpTha : List Nat
  icmpType : Nat
  icmpCode : Nat
  l7Payload : List Nat
deriving DecidableEq, Repr

/-- Legality of a wire event: every field fits the width the 75-byte packed
record gives it (u8 / u16 / u32 / 6-byte MAC / 32-byte payload). -/
def NetworkEvent.Wf (e : NetworkEvent) : Prop :=
  e.eventType < 256 ∧
  e.srcMac.length = 6 ∧ (∀ b ∈ e.srcMac, b < 256) ∧
  e.dstMac.length = 6 ∧ (∀ b ∈ e.dstMac, b < 256) ∧
  e.srcIP < 4294967296 ∧ e.dstIP < 4294967296 ∧
  e.srcPort < 65536 ∧ e.dstPort < 65536 ∧
  e.protocol < 256 ∧ e.tcpFlags < 256 ∧
  e.arpOp < 65536 ∧
  e.arpSha.length = 6 ∧ (∀ b ∈ e.arpSha, b < 256) ∧
  e.arpTha.length = 6 ∧ (∀ b ∈ e.arpTha, b < 256) ∧
  e.icmpType < 256 ∧ e.icmpCode < 256 ∧
  e.l7Payload.length = 32 ∧ (∀ b ∈ e.l7Payload, b < 256)

instance (e : NetworkEvent) : Decidable e.Wf := by
  unfold NetworkEvent.Wf; infer_instance

/-- `utils.ParseNetworkEvent` (the userspace decoder): reads the fields of the
75-byte record at their fixed offsets, little-endian for the multi-byte
integers.  The Go function performs unguarded slices up to offset 43 — a
record shorter than 43 bytes makes it panic, modelled here as `none` — and
copies the 32-byte payload only when at least 75 bytes are present, leaving
the zero value of `[32]byte` otherwise. -/
def ParseNetworkEvent (data : List Nat) : Option NetworkEvent :=
  if data.length < 43 then none
  else some
    { eventType := readU8 data 0
      srcMac := readBytes data 1 6
      dstMac := readBytes data 7 6
      srcIP := readLE32 data 13
      dstIP := readLE32 data 17
      srcPort := readLE16 data 21
      dstPort := readLE16 data 23
      protocol := readU8 data 25
      tcpFlags := readU8 data 26
      arpOp := readLE16 data 27
      arpSha := readBytes data 29 6
      arpTha := readBytes data 35 6
      icmpType := readU8 data 41
      icmpCode := readU8 data 42
      l7Payload :=
        if 75 ≤ data.length then readBytes data 43 32
        else List.replicate 32 0 }

/-- The kernel-side encoding (ebpf/monitor_xdp.c): the packed
`struct network_event` written into the ring buffer, i.e. the fields laid out
back to back with u16/u32 members in the little-endian byte order of the
build targets. -/
def encodeNetworkEvent (e : NetworkEvent) : List Nat :=
  [e.eventType] ++ (e.srcMac ++ (e.dstMac ++ (le32 e.srcIP ++ (le32 e.dstIP ++
  (le16 e.srcPort ++ (le16 e.dstPort ++ ([e.protocol, e.tcpFlags] ++
  (le16 e.arpOp ++ (e.arpSha ++ (e.arpTha ++ ([e.icmpType, e.icmpCode] ++
  e.l7Payload)))))))))))

/-- A concrete legal wire event (the TCP HTTPS SYN of the spec scenarios),
used to evaluate proved properties at a specific input. -/
def sampleEvent : NetworkEvent :=
  { eventType := 2
    srcMac := [0xaa, 0xbb, 0xcc, 0xdd, 0xee, 0xff]
    dstMac := [1, 2, 3, 4, 5, 6]
    srcIP := 0x0900a8c0
    dstIP := 0x08080808
    srcPort := 51000
    dstPort := 443
    protocol := 6
    tcpFlags := 2
    arpOp := 0
    arpSha := [0, 0, 0, 0, 0, 0]
    arpTha := [0, 0, 0, 0, 0, 0]
    icmpType := 0
    icmpCode := 0
    l7Payload := List.replicate 32 0 }

/-- A Go byte viewed as a character (injective on 0..255, so Go's byte-wise
string comparisons coincide with the comparisons on the image strings). -/
def byteChar (b : Nat) : Char := Char.ofNat b

/-- `string(bs)`: a Go string built from raw bytes. -/
def bytesToString (bs : List Nat) : String := String.mk (bs.map byteChar)

/-- One lowercase hex digit. -/
def hexDigit (n : Nat) : Char :=
  if n < 10 then Char.ofNat (48 + n) else Char.ofNat (87 + n)

/-- `%02x` of one byte. -/
def byteHex (b : Nat) : String := String.mk [hexDigit (b / 16 % 16), hexDigit (b % 16)]

/-- `utils.MacToString`: lowercase colon-separated hex of the six MAC bytes. -/
def MacToString (mac : List Nat) : String :=
  String.intercalate ":" (mac.map byteHex)

/-- `utils.IntToIP(i).String()`: lay the u32 out little-endian and render the
four bytes as a dotted quad. -/
def intToIPString (i : Nat) : String :=
  Nat.repr (i % 256) ++ "." ++ Nat.repr (i / 256 % 256) ++ "." ++
  Nat.repr (i / 65536 % 256) ++ "." ++ Nat.repr (i / 16777216 % 256)

/-- `utils.Contains`: membership in a Go string slice. -/
def Contains (slice : List String) (item : String) : Bool := slice.contains item

/-- `strings.HasPrefix`: byte-wise prefix test (char-wise on the image
strings). -/
def strStartsWith (s pre : String) : Bool := pre.data.isPrefixOf s.data

/-- ASCII uppercasing of one character (`strings.ToUpper` restricted to the
ASCII range; MAC strings are lowercase hex and colons). -/
def charUpper (c : Char) : Char :=
  if 97 ≤ c.toNat ∧ c.toNat ≤ 122 then Char.ofNat (c.toNat - 32) else c

/-- `strings.ToUpper` on the ASCII strings used here. -/
def strToUpper (s : String) : String := String.mk (s.data.map charUpper)

/-- `strings.Split(s, ":")`: cut at every colon, keeping empty fields. -/
def splitColonChars (cs : List Char) (cur : List Char) : List (List Char) :=
  match cs with
  | [] => [cur.reverse]
  | c :: rest =>
    if c = Char.ofNat 58 then cur.reverse :: splitColonChars rest []
    else splitColonChars rest (c :: cur)

/-- `strings.Split(s, ":")` as a String function. -/
def splitOnColon (s : String) : List String :=
  (splitColonChars s.data []).map String.mk

/-- `models.TrafficType` is a string type; the constants below are the ones
from internal/models/types.go. -/
abbrev TrafficType := String

def TrafficARPRequest : TrafficType := "ARP_REQUEST"
def TrafficARPReply : TrafficType := "ARP_REPLY"
def TrafficARPProbe : TrafficType := "ARP_PROBE"
def TrafficARPAnnounce : TrafficType := "ARP_ANNOUNCE"
def TrafficTCPSYN : TrafficType := "TCP_SYN"
def TrafficTCPSYNACK : TrafficType := "TCP_SYNACK"
def TrafficTCPACK : TrafficType := "TCP_ACK"
def TrafficTCPFIN : TrafficType := "TCP_FIN"
def TrafficTCPRST : TrafficType := "TCP_RST"
def TrafficTCPHTTP : TrafficType := "TCP_HTTP"
def TrafficTCPHTTPS : TrafficType := "TCP_HTTPS"
def TrafficTCPSSH : TrafficType := "TCP_SSH"
def TrafficTCPCustom : TrafficType := "TCP_CUSTOM"
def TrafficUDPDNS : TrafficType := "UDP_DNS"
def TrafficUDPDHCP : TrafficType := "UDP_DHCP"
def TrafficUDPNTP : TrafficType := "UDP_NTP"
def TrafficUDPSNMP : TrafficType := "UDP_SNMP"
def TrafficUDPCustom : TrafficType := "UDP_CUSTOM"
def TrafficICMPEchoRequest : TrafficType := "ICMP_ECHO_REQUEST"
def TrafficICMPEchoReply : TrafficType := "ICMP_ECHO_REPLY"
def TrafficICMPDestUnreach : TrafficType := "ICMP_DEST_UNREACHABLE"
def TrafficICMPTimeExceeded : TrafficType := "ICMP_TIME_EXCEEDED"
def TrafficICMPRedirect : TrafficType := "ICMP_REDIRECT"
def TrafficICMPCustom : TrafficType := "ICMP_CUSTOM"
def TrafficDNSQuery : TrafficType := "DNS_QUERY"
def TrafficDNSResponse : TrafficType := "DNS_RESPONSE"
def TrafficHTTPGET : TrafficType := "HTTP_GET"
def TrafficHTTPPOST : TrafficType := "HTTP_POST"
def TrafficHTTPRequest : TrafficType := "HTTP_REQUEST"
def TrafficTLSClientHello : TrafficType := "TLS_CLIENT_HELLO"
def TrafficTLSServerHello : TrafficType := "TLS_SERVER_HELLO"
def TrafficTLSHandshake : TrafficType := "TLS_HANDSHAKE"

/-- `classifyTCPTraffic` (internal/monitor): well-known destination ports are
checked first, then the TCP flag patterns. -/
def classifyTCPTraffic (srcIP dstIP : String) (srcPort dstPort tcpFlags : Nat) :
    TrafficType :=
  if dstPort = 80 then TrafficTCPHTTP
  else if dstPort = 443 then TrafficTCPHTTPS
  else if dstPort = 22 then TrafficTCPSSH
  else if tcpFlags &&& 0x02 ≠ 0 ∧ tcpFlags &&& 0x10 = 0 then TrafficTCPSYN
  else if tcpFlags &&& 0x02 ≠ 0 ∧ tcpFlags &&& 0x10 ≠ 0 then TrafficTCPSYNACK
  else if tcpFlags &&& 0x01 ≠ 0 then TrafficTCPFIN
  else if tcpFlags &&& 0x04 ≠ 0 then TrafficTCPRST
  else if tcpFlags &&& 0x10 ≠ 0 then TrafficTCPACK
  else TrafficTCPCustom

/-- `classifyUDPTraffic` (internal/monitor). -/
def classifyUDPTraffic (srcIP dstIP : String) (srcPort dstPort : Nat) :
    TrafficType :=
  if dstPort = 53 ∨ srcPort = 53 then TrafficUDPDNS
  else if dstPort = 67 ∨ dstPort = 68 then TrafficUDPDHCP
  else if dstPort = 123 then TrafficUDPNTP
  else if dstPort = 161 ∨ dstPort = 162 then TrafficUDPSNMP
  else TrafficUDPCustom

/-- `classifyARPTraffic` (internal/monitor). -/
def classifyARPTraffic (srcIP dstIP : String) (op : Nat) : TrafficType :=
  if srcIP = "0.0.0.0" then TrafficARPProbe
  else if srcIP = dstIP then TrafficARPAnnounce
  else if op = 1 then TrafficARPRequest
  else if op = 2 then TrafficARPReply
  else TrafficARPRequest

/-- `classifyICMPTraffic` (internal/monitor). -/
def classifyICMPTraffic (icmpType icmpCode : Nat) : TrafficType :=
  match icmpType with
  | 0 => TrafficICMPEchoReply
  | 3 => TrafficICMPDestUnreach
  | 5 => TrafficICMPRedirect
  | 8 => TrafficICMPEchoRequest
  | 11 => TrafficICMPTimeExceeded
  | _ => TrafficICMPCustom

/-- `classifyDNSTraffic` (internal/monitor): the QR bit of the DNS flags
(payload bytes 2 and 3, big-endian). -/
def classifyDNSTraffic (payload : List Nat) : TrafficType :=
  if ((payload.getD 2 0) <<< 8 ||| payload.getD 3 0) &&& 0x8000 ≠ 0 then
    TrafficDNSResponse
  else TrafficDNSQuery

/-- `classifyHTTPTraffic` (internal/monitor). -/
def classifyHTTPTraffic (payload : List Nat) : TrafficType :=
  let str := bytesToString payload
  if strStartsWith str "GET " then TrafficHTTPGET
  else if strStartsWith str "POST " then TrafficHTTPPOST
  else TrafficHTTPRequest

/-- `classifyTLSTraffic` (internal/monitor). -/
def classifyTLSTraffic (payload : List Nat) : TrafficType :=
  if payload.getD 0 0 = 0x16 ∧ payload.getD 5 0 = 0x01 then
    TrafficTLSClientHello
  else if payload.getD 0 0 = 0x16 ∧ payload.getD 5 0 = 0x02 then
    TrafficTLSServerHello
  else TrafficTLSHandshake

/-- `models.ServiceInfo`. -/
structure ServiceInfo where
  port : Nat
  protocol : String
  service : String
  description : String
deriving DecidableEq, Repr

/-- `databases.LoadServiceDatabase` (internal/databases): the static
port-keyed service table. -/
def loadServiceDatabase : List (Nat × ServiceInfo) :=
  [ (20, ⟨20, "TCP", "FTP-DATA", "File Transfer Protocol (Data)"⟩),
    (21, ⟨21, "TCP", "FTP", "File Transfer Protocol (Control)"⟩),
    (22, ⟨22, "TCP", "SSH", "Secure Shell"⟩),
    (23, ⟨23, "TCP", "TELNET", "Telnet"⟩),
    (25, ⟨25, "TCP", "SMTP", "Simple Mail Transfer Protocol"⟩),
    (53, ⟨53, "UDP", "DNS", "Domain Name System"⟩),
    (67, ⟨67, "UDP", "DHCP-SERVER", "DHCP Server"⟩),
    (68, ⟨68, "UDP", "DHCP-CLIENT", "DHCP Client"⟩),
    (80, ⟨80, "TCP", "HTTP", "Hypertext Transfer Protocol"⟩),
    (110, ⟨110, "TCP", "POP3", "Post Office Protocol v3"⟩),
    (123, ⟨123, "UDP", "NTP", "Network Time Protocol"⟩),
    (143, ⟨143, "TCP", "IMAP", "Internet Message Access Protocol"⟩),
    (161, ⟨161, "UDP", "SNMP", "Simple Network Management Protocol"⟩),
    (162, ⟨162, "UDP", "SNMP-TRAP", "SNMP Trap"⟩),
    (443, ⟨443, "TCP", "HTTPS", "HTTP over TLS/SSL"⟩),
    (445, ⟨445, "TCP", "SMB", "Server Message Block"⟩),
    (514, ⟨514, "UDP", "SYSLOG", "System Logging"⟩),
    (1194, ⟨1194, "UDP", "OPENVPN", "OpenVPN"⟩),
    (1883, ⟨1883, "TCP", "MQTT", "Message Queuing Telemetry Transport"⟩),
    (3306, ⟨3306, "TCP", "MYSQL", "MySQL Database"⟩),
    (3389, ⟨3389, "TCP", "RDP", "Remote Desktop Protocol"⟩),
    (5432, ⟨5432, "TCP", "POSTGRESQL", "PostgreSQL Database"⟩),
    (5672, ⟨5672, "TCP", "AMQP", "Advanced Message Queuing Protocol"⟩),
    (6379, ⟨6379, "TCP", "REDIS", "Redis Database"⟩),
    (8080, ⟨8080, "TCP", "HTTP-ALT", "HTTP Alternate"⟩),
    (8443, ⟨8443, "TCP", "HTTPS-ALT", "HTTPS Alternate"⟩),
    (9200, ⟨9200, "TCP", "ELASTICSEARCH", "Elasticsearch"⟩),
    (27017, ⟨27017, "TCP", "MONGODB", "MongoDB Database"⟩) ]

/-- `getServiceName` (internal/monitor): the static table entry wins when its
protocol matches (or is BOTH); otherwise format `"<PROTO>/<port>"`. -/
def getServiceName (db : List (Nat × ServiceInfo)) (port : Nat)
    (protocol : String) : String :=
  match db.lookup port with
  | some svc =>
    if svc.protocol = protocol ∨ svc.protocol = "BOTH" then svc.service
    else protocol ++ "/" ++ Nat.repr port
  | none => protocol ++ "/" ++ Nat.repr port

/-- `databases.LoadOUIDatabase` is consulted through `lookupVendor` only; the
claims never depend on a particular vendor string, so the table is carried as
a parameter of the monitor state (loaded once at startup). -/
def lookupVendor (ouiDB : List (String × String)) (mac : String) : String :=
  let parts := splitOnColon (strToUpper mac)
  if parts.length < 3 then "Unknown"
  else
    match ouiDB.lookup (String.intercalate ":" (parts.take 3)) with
    | some vendor => vendor
    | none => "Unknown"

/-- The label collector of `utils.InspectDNS`: length-prefixed DNS labels
starting at `offset`, stopping on a zero length, a length above 63, or a
label running past the buffer. -/
def dnsLabels (payload : List Nat) (offset : Nat) : List (List Nat) :=
  if _h : offset < payload.length then
    let labelLen := payload.getD offset 0
    if _h2 : labelLen = 0 then []
    else if 63 < labelLen ∨ payload.length < offset + labelLen + 1 then []
    else readBytes payload (offset + 1) labelLen ::
      dnsLabels payload (offset + 1 + labelLen)
  else []
termination_by payload.length - offset
decreasing_by simp_wf; omega

/-- `utils.InspectDNS`: skip the 12-byte DNS header and join the labels with
dots. -/
def InspectDNS (payload : List Nat) : String :=
  if payload.length < 13 then ""
  else
    let domain := dnsLabels payload 12
    if domain ≠ [] then String.intercalate "." (domain.map bytesToString)
    else ""

/-- Whitespace as `strings.Fields` sees it on ASCII input (the inputs used
here are ASCII-range byte strings). -/
def isGoSpace (c : Char) : Bool :=
  c = ' ' ∨ c = '\t' ∨ c = '\n' ∨ c = Char.ofNat 11 ∨ c = Char.ofNat 12 ∨
  c = '\r'

/-- Splitting into whitespace-separated fields, accumulating the current
word in reverse. -/
def fieldsLoop (cs : List Char) (cur : List Char) : List (List Char) :=
  match cs with
  | [] => if cur.isEmpty then [] else [cur.reverse]
  | c :: rest =>
    if isGoSpace c then
      if cur.isEmpty then fieldsLoop rest []
      else cur.reverse :: fieldsLoop rest []
    else fieldsLoop rest (c :: cur)

/-- `strings.Fields` (ASCII fast path). -/
def goFields (s : String) : List String :=
  (fieldsLoop s.data []).map String.mk

/-- The method/path extraction shared by every branch of `utils.InspectHTTP`:
`parts := strings.Fields(str); if len(parts) >= 2 { path = parts[1] }`. -/
def httpPathOf (str : String) : String :=
  let parts := goFields str
  if 2 ≤ parts.length then parts.getD 1 "" else ""

/-- `utils.InspectHTTP`: recognise the request method and, when a second
whitespace-separated token exists, the path. -/
def InspectHTTP (payload : List Nat) : String × String :=
  let str := bytesToString payload
  if strStartsWith str "GET " then ("GET", httpPathOf str)
  else if strStartsWith str "POST " then ("POST", httpPathOf str)
  else if strStartsWith str "HEAD " then ("HEAD", httpPathOf str)
  else if strStartsWith str "PUT " then ("PUT", httpPathOf str)
  else if strStartsWith str "DELETE " then ("DELETE", httpPathOf str)
  else ("", "")

/-- `utils.InspectTLS`: the literal "TLS" whenever byte 0 is the handshake
record type 0x16; no SNI is ever parsed out of the 32-byte peek. -/
def InspectTLS (payload : List Nat) : String :=
  if payload.length < 5 then ""
  else if payload.getD 0 0 ≠ 0x16 then ""
  else "TLS"

/-- `utils.GetL7Info`. -/
def GetL7Info (evt : NetworkEvent) : String :=
  match evt.eventType with
  | 5 =>
    let domain := InspectDNS evt.l7Payload
    if domain ≠ "" then domain else ""
  | 6 =>
    let mp := InspectHTTP evt.l7Payload
    if mp.1 ≠ "" then
      if mp.2 ≠ "" then mp.1 ++ " " ++ mp.2 else mp.1
    else ""
  | 7 => InspectTLS evt.l7Payload
  | _ => ""

/-- `databases.LoadOUIDatabase` (internal/databases): the static OUI table. -/
def loadOUIDatabase : List (String × String) :=
  [ ("00:00:5E", "IANA"), ("00:01:42", "Cisco"), ("00:03:93", "Apple"),
    ("00:0C:29", "VMware"), ("00:0D:3A", "Microsoft"),
    ("00:15:5D", "Microsoft"), ("00:16:3E", "Xensource"),
    ("00:1A:11", "Google"), ("00:1B:21", "Intel"), ("00:1C:42", "Parallels"),
    ("00:50:56", "VMware"), ("08:00:27", "Oracle VirtualBox"),
    ("18:03:73", "Texas Instruments"), ("28:6A:BA", "Tp-Link"),
    ("3C:46:D8", "Tp-Link"), ("6C:4F:89", "Router/Gateway"),
    ("DC:62:79", "IoT Device"), ("52:54:00", "QEMU/KVM"),
    ("AC:DE:48", "Private"), ("B8:27:EB", "Raspberry Pi"),
    ("DC:A6:32", "Raspberry Pi"), ("E4:5F:01", "Raspberry Pi") ]

/-- `models.FlowStats`. -/
structure FlowStats where
  packetCount : Nat
  byteCount : Nat
  firstSeen : Nat
  lastSeen : Nat
deriving DecidableEq, Repr

/-- `models.DeviceInfo` (internal/models/types.go): the per-MAC aggregate.
Go maps are carried as association lists; a nil Go map and an empty one are
both the empty list (TrackEvent normalises nil maps to empty ones before any
use). -/
structure DeviceInfo where
  mac : String
  ip : String
  vendor : String
  firstSeen : Nat
  lastSeen : Nat
  requestCount : Nat
  replyCount : Nat
  tcpConnections : Nat
  udpConnections : Nat
  icmpPackets : Nat
  dnsQueries : Nat
  httpRequests : Nat
  tlsConnections : Nat
  targets : List String
  services : List (String × Nat)
  dnsDomains : List (String × Nat)
  httpHosts : List (String × Nat)
  tlsSNIs : List (String × Nat)
  seenPatterns : List String
  trafficTypeCounts : List (String × Nat)
  flowStats : List (String × FlowStats)
deriving DecidableEq, Repr

/-- `models.CommunicationPattern`. -/
structure CommunicationPattern where
  srcMAC : String
  srcIP : String
  dstIP : String
  dstPort : Nat
  protocol : String
  trafficType : TrafficType
  service : String
  timestamp : Nat
  l7Info : String
deriving DecidableEq, Repr

/-- The `Stats` block of `monitor.NetworkMonitor`. -/
structure Stats where
  totalPackets : Nat
  arpPackets : Nat
  tcpPackets : Nat
  udpPackets : Nat
  icmpPackets : Nat
  dnsPackets : Nat
  httpPackets : Nat
  tlsPackets : Nat
deriving DecidableEq, Repr

/-- `monitor.NetworkMonitor`: the LRU cache (front = most recently used),
its capacity, the snapshot store contents viewed as decoded device records,
the two static tables, and the global counters. -/
structure NetworkMonitor where
  cache : List (String × DeviceInfo)
  cacheSize : Nat
  db : List (String × DeviceInfo)
  ouiDB : List (String × String)
  serviceDB : List (Nat × ServiceInfo)
  stats : Stats
deriving DecidableEq, Repr

/-- The values bound by the `switch evt.EventType` block of `TrackEvent`. -/
structure EventClass where
  trafficType : TrafficType
  protocol : String
  service : String
  l7Info : String
deriving DecidableEq, Repr

/-- `m[k]++` on a Go counter map. -/
def bump : List (String × Nat) → String → List (String × Nat)
  | [], k => [(k, 1)]
  | (k0, v) :: rest, k =>
    if k0 = k then (k0, v + 1) :: rest else (k0, v) :: bump rest k

/-- The per-family counter bump of the `switch evt.EventType` block. -/
def bumpFamilyStats (s : Stats) (eventType : Nat) : Stats :=
  match eventType with
  | 1 => { s with arpPackets := s.arpPackets + 1 }
  | 2 => { s with tcpPackets := s.tcpPackets + 1 }
  | 3 => { s with udpPackets := s.udpPackets + 1 }
  | 4 => { s with icmpPackets := s.icmpPackets + 1 }
  | 5 => { s with dnsPackets := s.dnsPackets + 1 }
  | 6 => { s with httpPackets := s.httpPackets + 1 }
  | 7 => { s with tlsPackets := s.tlsPackets + 1 }
  | _ => s

/-- The classification part of the `switch evt.EventType` block of
`TrackEvent`: traffic type, protocol label, service label and l7 info.  An
event type outside 1..7 hits no case and leaves the four Go variables at
their zero values. -/
def classifyEvent (serviceDB : List (Nat × ServiceInfo)) (evt : NetworkEvent)
    (srcIP dstIP : String) : EventClass :=
  match evt.eventType with
  | 1 =>
    let t := classifyARPTraffic srcIP dstIP evt.arpOp
    ⟨t, "ARP", t, ""⟩
  | 2 =>
    ⟨classifyTCPTraffic srcIP dstIP evt.srcPort evt.dstPort evt.tcpFlags,
      "TCP", getServiceName serviceDB evt.dstPort "TCP", GetL7Info evt⟩
  | 3 =>
    ⟨classifyUDPTraffic srcIP dstIP evt.srcPort evt.dstPort,
      "UDP", getServiceName serviceDB evt.dstPort "UDP", GetL7Info evt⟩
  | 4 =>
    let t := classifyICMPTraffic evt.icmpType evt.icmpCode
    ⟨t, "ICMP", t, ""⟩
  | 5 => ⟨classifyDNSTraffic evt.l7Payload, "DNS", "DNS", GetL7Info evt⟩
  | 6 => ⟨classifyHTTPTraffic evt.l7Payload, "HTTP", "HTTP", GetL7Info evt⟩
  | 7 => ⟨classifyTLSTraffic evt.l7Payload, "TLS", "TLS", GetL7Info evt⟩
  | _ => ⟨"", "", "", ""⟩

/-- The fresh record synthesised on a full cache + store miss. -/
def freshDevice (ouiDB : List (String × String)) (srcMAC srcIP : String)
    (now : Nat) : DeviceInfo :=
  { mac := srcMAC, ip := srcIP, vendor := lookupVendor ouiDB srcMAC,
    firstSeen := now, lastSeen := now,
    requestCount := 0, replyCount := 0, tcpConnections := 0,
    udpConnections := 0, icmpPackets := 0, dnsQueries := 0,
    httpRequests := 0, tlsConnections := 0,
    targets := [], services := [], dnsDomains := [], httpHosts := [],
    tlsSNIs := [], seenPatterns := [], trafficTypeCounts := [],
    flowStats := [] }

/-- The device lookup chain of `TrackEvent`: cache hit, else snapshot-store
hit (not a new device), else a fresh record (new device). -/
def lookupDevice (nm : NetworkMonitor) (srcMAC srcIP : String) (now : Nat) :
    DeviceInfo × Bool :=
  match nm.cache.lookup srcMAC with
  | some d => (d, false)
  | none =>
    match nm.db.lookup srcMAC with
    | some d => (d, false)
    | none => (freshDevice nm.ouiDB srcMAC srcIP now, true)

/-- Removing the entry of a key from the recency list. -/
def eraseKey : List (String × DeviceInfo) → String → List (String × DeviceInfo)
  | [], _ => []
  | p :: rest, k => if p.1 = k then rest else p :: eraseKey rest k

/-- `Cache.Add` of hashicorp/golang-lru: insert or update as most recently
used; evict the least recently used entry when the bound is exceeded. -/
def lruAdd (c : List (String × DeviceInfo)) (k : String) (v : DeviceInfo)
    (cap : Nat) : List (String × DeviceInfo) :=
  let c1 := (k, v) :: eraseKey c k
  if cap < c1.length then c1.dropLast else c1

/-- The canonical pattern key
`"<protocol>:<src_ip>-><dst_ip>:<dst_port>:<traffic_type>"`. -/
def patternKeyOf (protocol srcIP dstIP : String) (dstPort : Nat)
    (trafficType : TrafficType) : String :=
  protocol ++ ":" ++ srcIP ++ "->" ++ dstIP ++ ":" ++ Nat.repr dstPort ++
  ":" ++ trafficType

/-- Lines 322–326 of the monitor: freshen `last_seen` and, for a non-zero
source address that differs from the stored one, the `ip`. -/
def updateIdent (d : DeviceInfo) (srcIP : String) (now : Nat) : DeviceInfo :=
  { d with lastSeen := now,
           ip := if d.ip ≠ srcIP ∧ srcIP ≠ "0.0.0.0" then srcIP else d.ip }

/-- `device.TrafficTypeCounts[trafficType]++; device.Services[service]++`. -/
def bumpTagService (d : DeviceInfo) (cls : EventClass) : DeviceInfo :=
  { d with trafficTypeCounts := bump d.trafficTypeCounts cls.trafficType,
           services := bump d.services cls.service }

/-- The L7 block of `TrackEvent`: for DNS/HTTP/TLS events with a non-empty
l7 info, bump the per-key map and the per-protocol L7 counter. -/
def bumpL7 (d : DeviceInfo) (evt : NetworkEvent) (cls : EventClass) :
    DeviceInfo :=
  if cls.l7Info ≠ "" then
    if evt.eventType = 5 then
      { d with dnsDomains := bump d.dnsDomains cls.l7Info,
               dnsQueries := d.dnsQueries + 1 }
    else if evt.eventType = 6 then
      { d with httpHosts := bump d.httpHosts cls.l7Info,
               httpRequests := d.httpRequests + 1 }
    else if evt.eventType = 7 then
      { d with tlsSNIs := bump d.tlsSNIs cls.l7Info,
               tlsConnections := d.tlsConnections + 1 }
    else d
  else d

/-- The connection-counter switch of `TrackEvent`. -/
def bumpProtoCounters (d : DeviceInfo) (evt : NetworkEvent) : DeviceInfo :=
  if evt.eventType = 2 ∨ evt.eventType = 6 ∨ evt.eventType = 7 then
    { d with tcpConnections := d.tcpConnections + 1 }
  else if evt.eventType = 3 ∨ evt.eventType = 5 then
    { d with udpConnections := d.udpConnections + 1 }
  else if evt.eventType = 4 then
    { d with icmpPackets := d.icmpPackets + 1 }
  else if evt.eventType = 1 then
    if evt.arpOp = 1 then { d with requestCount := d.requestCount + 1 }
    else { d with replyCount := d.replyCount + 1 }
  else d

/-- The recent-target block of `TrackEvent`: append a non-zero, unseen
destination; when the list then exceeds 20 entries, drop the oldest. -/
def updateTargets (d : DeviceInfo) (dstIP : String) : DeviceInfo :=
  if dstIP ≠ "0.0.0.0" ∧ ¬ Contains d.targets dstIP then
    { d with targets :=
        if 20 < (d.targets ++ [dstIP]).length then (d.targets ++ [dstIP]).drop 1
        else d.targets ++ [dstIP] }
  else d

/-- The pattern block of `TrackEvent`: on an unseen pattern key, record it
and emit one `CommunicationPattern`. -/
def applyPattern (d : DeviceInfo) (evt : NetworkEvent) (cls : EventClass)
    (srcMAC srcIP dstIP : String) (now : Nat) :
    DeviceInfo × List CommunicationPattern :=
  if d.seenPatterns.contains
      (patternKeyOf cls.protocol srcIP dstIP evt.dstPort cls.trafficType) then
    (d, ([] : List CommunicationPattern))
  else
    ({ d with seenPatterns := d.seenPatterns ++
        [patternKeyOf cls.protocol srcIP dstIP evt.dstPort cls.trafficType] },
      [{ srcMAC := srcMAC, srcIP := srcIP, dstIP := dstIP,
         dstPort := evt.dstPort, protocol := cls.protocol,
         trafficType := cls.trafficType, service := cls.service,
         timestamp := now, l7Info := cls.l7Info }])

/-- The device mutation block of `TrackEvent` (lines 322–395 of the monitor):
freshen ip/last_seen, bump the per-tag and per-service counters, track L7
info, bump the per-protocol counters, track recent targets, and check the
pattern key, emitting one CommunicationPattern on first sight. -/
def updateDevice (d0 : DeviceInfo) (evt : NetworkEvent) (cls : EventClass)
    (srcMAC srcIP dstIP : String) (now : Nat) :
    DeviceInfo × List CommunicationPattern :=
  applyPattern
    (updateTargets
      (bumpProtoCounters (bumpL7 (bumpTagService (updateIdent d0 srcIP now)
        cls) evt cls) evt) dstIP) evt cls srcMAC srcIP dstIP now

/-- The outcome of one `TrackEvent` call: the new monitor state, the
new-pattern messages attempted on the pattern channel (0 or 1), and the
new-device messages attempted on the device channel (0 or 1). -/
structure TrackResult where
  monitor : NetworkMonitor
  patternMsgs : List CommunicationPattern
  deviceMsgs : List DeviceInfo
deriving DecidableEq, Repr

/-- `TrackEvent` (internal/monitor): one ingested event.  Time is passed in
explicitly in place of `time.Now()`; the channel sends are modelled as the
lists of attempted messages (the Go sends are non-blocking and may further
drop on a full buffer). -/
def TrackEvent (nm : NetworkMonitor) (evt : NetworkEvent) (now : Nat) :
    TrackResult :=
  let stats := bumpFamilyStats
    { nm.stats with totalPackets := nm.stats.totalPackets + 1 } evt.eventType
  let srcMAC := MacToString evt.srcMac
  let srcIP := intToIPString evt.srcIP
  let dstIP := intToIPString evt.dstIP
  let cls := classifyEvent nm.serviceDB evt srcIP dstIP
  let dl := lookupDevice nm srcMAC srcIP now
  let du := updateDevice dl.1 evt cls srcMAC srcIP dstIP now
  { monitor := { nm with stats := stats,
                         cache := lruAdd nm.cache srcMAC du.1 nm.cacheSize },
    patternMsgs := du.2,
    deviceMsgs := if dl.2 then [du.1] else [] }

/-- The pattern key `TrackEvent` computes for an event. -/
def eventPatternKey (nm : NetworkMonitor) (evt : NetworkEvent) : String :=
  let srcIP := intToIPString evt.srcIP
  let dstIP := intToIPString evt.dstIP
  let cls := classifyEvent nm.serviceDB evt srcIP dstIP
  patternKeyOf cls.protocol srcIP dstIP evt.dstPort cls.trafficType

/-- A sequence of `TrackEvent` calls; returns the final state and every
new-pattern message attempted along the way. -/
def runTrace (nm : NetworkMonitor) :
    List (NetworkEvent × Nat) → NetworkMonitor × List CommunicationPattern
  | [] => (nm, [])
  | (e, t) :: rest =>
    let r := TrackEvent nm e t
    let tail := runTrace r.monitor rest
    (tail.1, r.patternMsgs ++ tail.2)

/-- The pattern key a message on the new-pattern channel denotes. -/
def msgPatternKey (p : CommunicationPattern) : String :=
  patternKeyOf p.protocol p.srcIP p.dstIP p.dstPort p.trafficType

/-- How many messages in a batch concern the pair `(m, k)`. -/
def countKeyMsgs (msgs : List CommunicationPattern) (m k : String) : Nat :=
  (msgs.filter (fun p => p.srcMAC == m && msgPatternKey p == k)).length

/-- The channel invariant behind at-most-once pattern emission: the batch
holds at most one message for `(m, k)`, and as soon as it holds one, the
cached device for `m` has `k` marked seen. -/
def PatInv (msgs : List CommunicationPattern)
    (cache : List (String × DeviceInfo)) (m k : String) : Prop :=
  countKeyMsgs msgs m k ≤ 1 ∧
  (1 ≤ countKeyMsgs msgs m k →
    ∃ d, cache.lookup m = some d ∧ k ∈ d.seenPatterns)

/-- `NewNetworkMonitor(1000, ...)` as called from cmd/cerberus/main.go, with
an empty cache and an empty snapshot store. -/
def initialMonitor : NetworkMonitor :=
  { cache := [], cacheSize := 1000, db := [],
    ouiDB := loadOUIDatabase, serviceDB := loadServiceDatabase,
    stats := ⟨0, 0, 0, 0, 0, 0, 0, 0⟩ }

/-- An abstract JSON value (numbers, strings, arrays, objects), the image of
`encoding/json` marshalling. -/
inductive Json where
  | num : Nat → Json
  | str : String → Json
  | arr : List Json → Json
  | obj : List (String × Json) → Json

/-- A string list as a JSON array. -/
def jStrArr (xs : List String) : Json := Json.arr (xs.map Json.str)

/-- A Go counter map as a JSON object. -/
def jCountObj (m : List (String × Nat)) : Json :=
  Json.obj (m.map (fun p => (p.1, Json.num p.2)))

/-- `json.Marshal(device)` as run by the snapshot worker: the exported
fields under their struct tags, in declaration order; `seen_patterns` and
`flow_stats` carry the tag `"-"` and are omitted; `dns_domains`,
`http_hosts` and `tls_snis` carry `omitempty` and are omitted when empty.
Time instants are serialised by their injective rendering, modelled as the
number itself. -/
def serialiseDevice (d : DeviceInfo) : Json :=
  Json.obj
    ([ ("mac", Json.str d.mac), ("ip", Json.str d.ip),
       ("vendor", Json.str d.vendor),
       ("first_seen", Json.num d.firstSeen),
       ("last_seen", Json.num d.lastSeen),
       ("request_count", Json.num d.requestCount),
       ("reply_count", Json.num d.replyCount),
       ("tcp_connections", Json.num d.tcpConnections),
       ("udp_connections", Json.num d.udpConnections),
       ("icmp_packets", Json.num d.icmpPackets),
       ("dns_queries", Json.num d.dnsQueries),
       ("http_requests", Json.num d.httpRequests),
       ("tls_connections", Json.num d.tlsConnections),
       ("targets", jStrArr d.targets),
       ("services", jCountObj d.services) ]
     ++ (if d.dnsDomains = [] then []
         else [("dns_domains", jCountObj d.dnsDomains)])
     ++ (if d.httpHosts = [] then []
         else [("http_hosts", jCountObj d.httpHosts)])
     ++ (if d.tlsSNIs = [] then []
         else [("tls_snis", jCountObj d.tlsSNIs)])
     ++ [("traffic_type_counts", jCountObj d.trafficTypeCounts)])

/-- Field access on a JSON object. -/
def jField (j : Json) (k : String) : Option Json :=
  match j with
  | Json.obj kvs => kvs.lookup k
  | _ => none

/-- A string field, defaulting to the Go zero value. -/
def jStr (j : Json) (k : String) : String :=
  match jField j k with
  | some (Json.str s) => s
  | _ => ""

/-- A numeric field, defaulting to the Go zero value. -/
def jNum (j : Json) (k : String) : Nat :=
  match jField j k with
  | some (Json.num n) => n
  | _ => 0

/-- A string-array field, defaulting to the Go zero value. -/
def jStrList (j : Json) (k : String) : List String :=
  match jField j k with
  | some (Json.arr xs) =>
    xs.filterMap (fun x => match x with | Json.str s => some s | _ => none)
  | _ => []

/-- A counter-map field, defaulting to the Go zero value. -/
def jCounts (j : Json) (k : String) : List (String × Nat) :=
  match jField j k with
  | some (Json.obj kvs) =>
    kvs.filterMap (fun p =>
      match p.2 with | Json.num n => some (p.1, n) | _ => none)
  | _ => []

/-- `json.Unmarshal` into a fresh `DeviceInfo` (the rehydration path of
`TrackEvent`): absent fields keep the Go zero value; `seen_patterns` and
`flow_stats` are never decoded (tag `"-"`), so they come back empty. -/
def deserialiseDevice (j : Json) : DeviceInfo :=
  { mac := jStr j "mac", ip := jStr j "ip", vendor := jStr j "vendor",
    firstSeen := jNum j "first_seen", lastSeen := jNum j "last_seen",
    requestCount := jNum j "request_count",
    replyCount := jNum j "reply_count",
    tcpConnections := jNum j "tcp_connections",
    udpConnections := jNum j "udp_connections",
    icmpPackets := jNum j "icmp_packets",
    dnsQueries := jNum j "dns_queries",
    httpRequests := jNum j "http_requests",
    tlsConnections := jNum j "tls_connections",
    targets := jStrList j "targets",
    services := jCounts j "services",
    dnsDomains := jCounts j "dns_domains",
    httpHosts := jCounts j "http_hosts",
    tlsSNIs := jCounts j "tls_snis",
    seenPatterns := [],
    trafficTypeCounts := jCounts j "traffic_type_counts",
    flowStats := [] }

/-- One iteration of the ring-buffer drain loop of cmd/cerberus/main.go:
bump the event count; a record below the expected 75 bytes is logged as a
short packet and skipped; otherwise the record is parsed and handed to the
aggregator.  (The `none` branch is unreachable for records of at least 75
bytes.)  The returned Bool reports whether the short-packet log line was
printed. -/
def ingestRecord (nm : NetworkMonitor) (eventCount : Nat) (data : List Nat)
    (now : Nat) : NetworkMonitor × Nat × Bool :=
  let c := eventCount + 1
  if data.length < 75 then (nm, c, true)
  else
    match ParseNetworkEvent data with
    | some evt => ((TrackEvent nm evt now).monitor, c, false)
    | none => (nm, c, false)

/-- The recent-targets invariant of the spec: deduplicated, at most 20
entries, and never the zero address. -/
def TargetsInv (ts : List String) : Prop :=
  ts.Nodup ∧ ts.length ≤ 20 ∧ "0.0.0.0" ∉ ts

instance (ts : List String) : Decidable (TargetsInv ts) := by
  unfold TargetsInv; infer_instance

/-- The 75-byte all-zero record of the spec boundary behaviours, decoded. -/
def zeroEvent : NetworkEvent :=
  { eventType := 0, srcMac := [0, 0, 0, 0, 0, 0], dstMac := [0, 0, 0, 0, 0, 0],
    srcIP := 0, dstIP := 0, srcPort := 0, dstPort := 0, protocol := 0,
    tcpFlags := 0, arpOp := 0, arpSha := [0, 0, 0, 0, 0, 0],
    arpTha := [0, 0, 0, 0, 0, 0], icmpType := 0, icmpCode := 0,
    l7Payload := List.replicate 32 0 }

/-- The 32-byte payload "GET " followed by 28 zero bytes. -/
def getOnlyPayload : List Nat := [0x47, 0x45, 0x54, 0x20] ++ List.replicate 28 0

/-- A DNS query event (QR bit clear) used as a concrete input. -/
def dnsQueryEvent : NetworkEvent :=
  { sampleEvent with
    eventType := 5
    protocol := 17
    dstPort := 53
    l7Payload :=
      [0, 1, 1, 0, 0, 1, 0, 0, 0, 0, 0, 0,
       6, 0x67, 0x6f, 0x6f, 0x67, 0x6c, 0x65, 3, 0x63, 0x6f, 0x6d, 0] ++
      List.replicate 8 0 }

/-- A concrete device record with empty seen_patterns and flow_stats, used
to evaluate the snapshot round-trip. -/
def sampleSnapshotDevice : DeviceInfo :=
  { mac := "aa:bb:cc:dd:ee:ff", ip := "192.168.0.9", vendor := "Unknown",
    firstSeen := 5, lastSeen := 9, requestCount := 1, replyCount := 2,
    tcpConnections := 3, udpConnections := 4, icmpPackets := 5,
    dnsQueries := 6, httpRequests := 7, tlsConnections := 8,
    targets := ["8.8.8.8"], services := [("HTTPS", 3)],
    dnsDomains := [("google.com", 2)], httpHosts := [],
    tlsSNIs := [("TLS", 1)], seenPatterns := [],
    trafficTypeCounts := [("TCP_HTTPS", 3)], flowStats := [] }

/-- The monitor state after ingesting the sample event once (its device is
cached with the sample pattern key already seen). -/
def monitorAfterSample : NetworkMonitor :=
  (TrackEvent initialMonitor sampleEvent 0).monitor

/-- A TLS client-hello event used as a concrete input. -/
def tlsHelloEvent : NetworkEvent :=
  { sampleEvent with
    eventType := 7
    l7Payload := [0x16, 3, 3, 0, 0, 1] ++ List.replicate 26 0 }

theorem le16_length (n : Nat) : (le16 n).length = 2 := rfl

theorem le32_length (n : Nat) : (le32 n).length = 4 := rfl

theorem decodeLE_le16 (n : Nat) (h : n < 65536) : decodeLE (le16 n) = n := by
  simp [decodeLE, le16]
  omega

theorem decodeLE_le32 (n : Nat) (h : n < 4294967296) :
    decodeLE (le32 n) = n := by
  simp [decodeLE, le32]
  omega

theorem encode_length (e : NetworkEvent) (h : e.Wf) :
    (encodeNetworkEvent e).length = 75 := by
  obtain ⟨_, h1, _, h2, _, _, _, _, _, _, _, _, h3, _, h4, _, _, _, h5, _⟩ := h
  simp [encodeNetworkEvent, le16, le32, h1, h2, h3, h4, h5]

theorem drop_len_append (xs ys : List Nat) (n : Nat) (h : xs.length = n) :
    (xs ++ ys).drop n = ys := by
  subst h; exact List.drop_left xs ys

theorem take_len_append (xs ys : List Nat) (n : Nat) (h : xs.length = n) :
    (xs ++ ys).take n = xs := by
  subst h; exact List.take_left xs ys

/-- C1. Wire round-trip: for every legal `WireEvent` (75-byte record with
event_type u8, the MACs, little-endian IPs, ports, arp_op, the ICMP bytes and
the 32-byte payload at their fixed offsets), decoding the kernel-side
encoding with `ParseNetworkEvent` yields the event back:
`parse (encode e) = e`. -/
theorem parse_encode_roundtrip (e : NetworkEvent) (h : e.Wf) :
    ParseNetworkEvent (encodeNetworkEvent e) = some e := by
  obtain ⟨hty, hsm, hsmb, hdm, hdmb, hsi, hdi, hsp, hdp, hpr, hfl, hao,
    hsha, hshab, htha, hthab, hit, hic, hpl, hplb⟩ := h
  have hL : (encodeNetworkEvent e).length = 75 := by
    simp [encodeNetworkEvent, le16, le32, hsm, hdm, hsha, htha, hpl]
  have s1 : (encodeNetworkEvent e).drop 1 =
      e.srcMac ++ (e.dstMac ++ (le32 e.srcIP ++ (le32 e.dstIP ++
      (le16 e.srcPort ++ (le16 e.dstPort ++ ([e.protocol, e.tcpFlags] ++
      (le16 e.arpOp ++ (e.arpSha ++ (e.arpTha ++
      ([e.icmpType, e.icmpCode] ++ e.l7Payload)))))))))) := by
    rw [encodeNetworkEvent]; simp
  have s7 : (encodeNetworkEvent e).drop 7 =
      e.dstMac ++ (le32 e.srcIP ++ (le32 e.dstIP ++
      (le16 e.srcPort ++ (le16 e.dstPort ++ ([e.protocol, e.tcpFlags] ++
      (le16 e.arpOp ++ (e.arpSha ++ (e.arpTha ++
      ([e.icmpType, e.icmpCode] ++ e.l7Payload))))))))) := by
    rw [show (7 : Nat) = 1 + 6 from rfl, ← List.drop_drop, s1,
      drop_len_append _ _ 6 hsm]
  have s13 : (encodeNetworkEvent e).drop 13 =
      le32 e.srcIP ++ (le32 e.dstIP ++
      (le16 e.srcPort ++ (le16 e.dstPort ++ ([e.protocol, e.tcpFlags] ++
      (le16 e.arpOp ++ (e.arpSha ++ (e.arpTha ++
      ([e.icmpType, e.icmpCode] ++ e.l7Payload)))))))) := by
    rw [show (13 : Nat) = 7 + 6 from rfl, ← List.drop_drop, s7,
      drop_len_append _ _ 6 hdm]
  have s17 : (encodeNetworkEvent e).drop 17 =
      le32 e.dstIP ++
      (le16 e.srcPort ++ (le16 e.dstPort ++ ([e.protocol, e.tcpFlags] ++
      (le16 e.arpOp ++ (e.arpSha ++ (e.arpTha ++
      ([e.icmpType, e.icmpCode] ++ e.l7Payload))))))) := by
    rw [show (17 : Nat) = 13 + 4 from rfl, ← List.drop_drop, s13,
      drop_len_append _ _ 4 (le32_length _)]
  have s21 : (encodeNetworkEvent e).drop 21 =
      le16 e.srcPort ++ (le16 e.dstPort ++ ([e.protocol, e.tcpFlags] ++
      (le16 e.arpOp ++ (e.arpSha ++ (e.arpTha ++
      ([e.icmpType, e.icmpCode] ++ e.l7Payload)))))) := by
    rw [show (21 : Nat) = 17 + 4 from rfl, ← List.drop_drop, s17,
      drop_len_append _ _ 4 (le32_length _)]
  have s23 : (encodeNetworkEvent e).drop 23 =
      le16 e.dstPort ++ ([e.protocol, e.tcpFlags] ++
      (le16 e.arpOp ++ (e.arpSha ++ (e.arpTha ++
      ([e.icmpType, e.icmpCode] ++ e.l7Payload))))) := by
    rw [show (23 : Nat) = 21 + 2 from rfl, ← List.drop_drop, s21,
      drop_len_append _ _ 2 (le16_length _)]
  have s25 : (encodeNetworkEvent e).drop 25 =
      [e.protocol, e.tcpFlags] ++
      (le16 e.arpOp ++ (e.arpSha ++ (e.arpTha ++
      ([e.icmpType, e.icmpCode] ++ e.l7Payload)))) := by
    rw [show (25 : Nat) = 23 + 2 from rfl, ← List.drop_drop, s23,
      drop_len_append _ _ 2 (le16_length _)]
  have s27 : (encodeNetworkEvent e).drop 27 =
      le16 e.arpOp ++ (e.arpSha ++ (e.arpTha ++
      ([e.icmpType, e.icmpCode] ++ e.l7Payload))) := by
    rw [show (27 : Nat) = 25 + 2 from rfl, ← List.drop_drop, s25,
      drop_len_append [e.protocol, e.tcpFlags] _ 2 rfl]
  have s29 : (encodeNetworkEvent e).drop 29 =
      e.arpSha ++ (e.arpTha ++ ([e.icmpType, e.icmpCode] ++ e.l7Payload)) := by
    rw [show (29 : Nat) = 27 + 2 from rfl, ← List.drop_drop, s27,
      drop_len_append _ _ 2 (le16_length _)]
  have s35 : (encodeNetworkEvent e).drop 35 =
      e.arpTha ++ ([e.icmpType, e.icmpCode] ++ e.l7Payload) := by
    rw [show (35 : Nat) = 29 + 6 from rfl, ← List.drop_drop, s29,
      drop_len_append _ _ 6 hsha]
  have s41 : (encodeNetworkEvent e).drop 41 =
      [e.icmpType, e.icmpCode] ++ e.l7Payload := by
    rw [show (41 : Nat) = 35 + 6 from rfl, ← List.drop_drop, s35,
      drop_len_append _ _ 6 htha]
  have s43 : (encodeNetworkEvent e).drop 43 = e.l7Payload := by
    rw [show (43 : Nat) = 41 + 2 from rfl, ← List.drop_drop, s41,
      drop_len_append [e.icmpType, e.icmpCode] _ 2 rfl]
  have f0 : readU8 (encodeNetworkEvent e) 0 = e.eventType := by
    rw [readU8, encodeNetworkEvent]; simp
  have f1 : readBytes (encodeNetworkEvent e) 1 6 = e.srcMac := by
    rw [readBytes, s1, take_len_append _ _ 6 hsm]
  have f7 : readBytes (encodeNetworkEvent e) 7 6 = e.dstMac := by
    rw [readBytes, s7, take_len_append _ _ 6 hdm]
  have f13 : readLE32 (encodeNetworkEvent e) 13 = e.srcIP := by
    rw [readLE32, s13, take_len_append _ _ 4 (le32_length _),
      decodeLE_le32 _ hsi]
  have f17 : readLE32 (encodeNetworkEvent e) 17 = e.dstIP := by
    rw [readLE32, s17, take_len_append _ _ 4 (le32_length _),
      decodeLE_le32 _ hdi]
  have f21 : readLE16 (encodeNetworkEvent e) 21 = e.srcPort := by
    rw [readLE16, s21, take_len_append _ _ 2 (le16_length _),
      decodeLE_le16 _ hsp]
  have f23 : readLE16 (encodeNetworkEvent e) 23 = e.dstPort := by
    rw [readLE16, s23, take_len_append _ _ 2 (le16_length _),
      decodeLE_le16 _ hdp]
  have f25 : readU8 (encodeNetworkEvent e) 25 = e.protocol := by
    rw [readU8, s25]; rfl
  have f26 : readU8 (encodeNetworkEvent e) 26 = e.tcpFlags := by
    rw [readU8, show (26 : Nat) = 25 + 1 from rfl, ← List.drop_drop, s25]; rfl
  have f27 : readLE16 (encodeNetworkEvent e) 27 = e.arpOp := by
    rw [readLE16, s27, take_len_append _ _ 2 (le16_length _),
      decodeLE_le16 _ hao]
  have f29 : readBytes (encodeNetworkEvent e) 29 6 = e.arpSha := by
    rw [readBytes, s29, take_len_append _ _ 6 hsha]
  have f35 : readBytes (encodeNetworkEvent e) 35 6 = e.arpTha := by
    rw [readBytes, s35, take_len_append _ _ 6 htha]
  have f41 : readU8 (encodeNetworkEvent e) 41 = e.icmpType := by
    rw [readU8, s41]; rfl
  have f42 : readU8 (encodeNetworkEvent e) 42 = e.icmpCode := by
    rw [readU8, show (42 : Nat) = 41 + 1 from rfl, ← List.drop_drop, s41]; rfl
  have f43 : readBytes (encodeNetworkEvent e) 43 32 = e.l7Payload := by
    rw [readBytes, s43, ← hpl, List.take_length]
  rw [ParseNetworkEvent, if_neg (by omega)]
  rw [if_pos (by omega)]
  rw [f0, f1, f7, f13, f17, f21, f23, f25, f26, f27, f29, f35, f41, f42, f43]

/-- Witness for C1: the round-trip evaluated at a concrete legal event. -/
theorem parse_encode_roundtrip_witness :
    sampleEvent.Wf ∧
      ParseNetworkEvent (encodeNetworkEvent sampleEvent) = some sampleEvent :=
  ⟨by decide, parse_encode_roundtrip sampleEvent (by decide)⟩

/-! ### Helper lemmas on association-list lookup and the LRU cache -/

theorem lookup_cons_self (k : String) (v : DeviceInfo)
    (t : List (String × DeviceInfo)) : ((k, v) :: t).lookup k = some v := by
  simp [List.lookup]

theorem lookup_cons_ne (a : String × DeviceInfo)
    (t : List (String × DeviceInfo)) (m : String) (h : a.1 ≠ m) :
    (a :: t).lookup m = t.lookup m := by
  rcases a with ⟨k0, v0⟩
  simp only [List.lookup]
  rw [show (m == k0) = false from beq_eq_false_iff_ne.mpr (Ne.symm h)]

theorem eraseKey_length_le (c : List (String × DeviceInfo)) (k : String) :
    (eraseKey c k).length ≤ c.length := by
  induction c with
  | nil => simp [eraseKey]
  | cons a t ih =>
    rw [eraseKey]
    by_cases h : a.1 = k
    · rw [if_pos h]; simp
    · rw [if_neg h]; simpa using ih

theorem eraseKey_length_of_lookup (c : List (String × DeviceInfo))
    (k : String) (v : DeviceInfo) (h : c.lookup k = some v) :
    (eraseKey c k).length + 1 = c.length := by
  induction c with
  | nil => simp [List.lookup] at h
  | cons a t ih =>
    rw [eraseKey]
    by_cases ha : a.1 = k
    · rw [if_pos ha]; simp
    · rw [if_neg ha]
      rw [lookup_cons_ne a t k ha] at h
      simpa using ih h

theorem eraseKey_lookup_ne (c : List (String × DeviceInfo)) (k m : String)
    (h : m ≠ k) : (eraseKey c k).lookup m = c.lookup m := by
  induction c with
  | nil => simp [eraseKey]
  | cons a t ih =>
    rw [eraseKey]
    by_cases ha : a.1 = k
    · rw [if_pos ha, lookup_cons_ne a t m (by rw [ha]; exact Ne.symm h)]
    · rw [if_neg ha]
      rcases a with ⟨k0, v0⟩
      by_cases ham : k0 = m
      · subst ham
        rw [lookup_cons_self, lookup_cons_self]
      · rw [lookup_cons_ne ⟨k0, v0⟩ _ m ham,
          lookup_cons_ne ⟨k0, v0⟩ _ m ham]
        exact ih

theorem lruAdd_noEvict (c : List (String × DeviceInfo)) (k : String)
    (v : DeviceInfo) (cap : Nat) (h : (eraseKey c k).length + 1 ≤ cap) :
    lruAdd c k v cap = (k, v) :: eraseKey c k := by
  simp only [lruAdd]
  rw [if_neg (by simp only [List.length_cons]; omega)]

theorem lruAdd_lookup_self (c : List (String × DeviceInfo)) (k : String)
    (v : DeviceInfo) (cap : Nat) (h : 1 ≤ cap) :
    (lruAdd c k v cap).lookup k = some v := by
  simp only [lruAdd]
  by_cases hd : cap < ((k, v) :: eraseKey c k).length
  · rw [if_pos hd]
    cases he : eraseKey c k with
    | nil => rw [he] at hd; simp at hd; omega
    | cons b t =>
      rw [List.dropLast_cons₂]
      exact lookup_cons_self k v _
  · rw [if_neg hd]
    exact lookup_cons_self k v _

theorem lruAdd_lookup_ne (c : List (String × DeviceInfo)) (k : String)
    (v : DeviceInfo) (cap : Nat) (m : String) (hm : m ≠ k)
    (h : (eraseKey c k).length + 1 ≤ cap) :
    (lruAdd c k v cap).lookup m = c.lookup m := by
  rw [lruAdd_noEvict c k v cap h,
    lookup_cons_ne ⟨k, v⟩ _ m (Ne.symm hm)]
  exact eraseKey_lookup_ne c k m hm

theorem lruAdd_length_le (c : List (String × DeviceInfo)) (k : String)
    (v : DeviceInfo) (cap : Nat) :
    (lruAdd c k v cap).length ≤ c.length + 1 := by
  have he := eraseKey_length_le c k
  simp only [lruAdd]
  by_cases hd : cap < ((k, v) :: eraseKey c k).length
  · rw [if_pos hd]
    rw [List.length_dropLast]
    simp only [List.length_cons]
    omega
  · rw [if_neg hd]
    simp only [List.length_cons]
    omega

/-- C5. TCP traffic-type classification: the destination port is consulted
first (80 → TCP_HTTP, 443 → TCP_HTTPS, 22 → TCP_SSH) and only otherwise do
the flags decide (SYN without ACK, SYN with ACK, FIN, RST, ACK, default
CUSTOM); in particular dst_port 443 with the SYN flag classifies as
TCP_HTTPS. -/
theorem classifyTCP_port_priority (srcIP dstIP : String)
    (srcPort dstPort tcpFlags : Nat) :
    classifyTCPTraffic srcIP dstIP srcPort 80 tcpFlags = TrafficTCPHTTP ∧
    classifyTCPTraffic srcIP dstIP srcPort 443 tcpFlags = TrafficTCPHTTPS ∧
    classifyTCPTraffic srcIP dstIP srcPort 22 tcpFlags = TrafficTCPSSH ∧
    (dstPort ≠ 80 → dstPort ≠ 443 → dstPort ≠ 22 →
      classifyTCPTraffic srcIP dstIP srcPort dstPort tcpFlags =
        (if tcpFlags &&& 2 ≠ 0 ∧ tcpFlags &&& 16 = 0 then TrafficTCPSYN
         else if tcpFlags &&& 2 ≠ 0 ∧ tcpFlags &&& 16 ≠ 0 then TrafficTCPSYNACK
         else if tcpFlags &&& 1 ≠ 0 then TrafficTCPFIN
         else if tcpFlags &&& 4 ≠ 0 then TrafficTCPRST
         else if tcpFlags &&& 16 ≠ 0 then TrafficTCPACK
         else TrafficTCPCustom)) ∧
    classifyTCPTraffic srcIP dstIP srcPort 443 2 = TrafficTCPHTTPS := by
  refine ⟨by simp [classifyTCPTraffic], by simp [classifyTCPTraffic],
    by simp [classifyTCPTraffic], ?_, by simp [classifyTCPTraffic]⟩
  intro h1 h2 h3
  simp [classifyTCPTraffic, h1, h2, h3]

/-- Witness for C5: a non-well-known port with a bare SYN. -/
theorem classifyTCP_port_priority_witness :
    classifyTCPTraffic "192.168.0.100" "8.8.8.8" 51000 23 2 = TrafficTCPSYN := by
  have h := (classifyTCP_port_priority "192.168.0.100" "8.8.8.8" 51000 23
    2).2.2.2.1 (by decide) (by decide) (by decide)
  rw [h]; decide

/-- C8. Short-record handling: the parser fails only on inputs shorter than
75 bytes, every record of at least 75 bytes parses, and a ring-buffer record
below 75 bytes is counted, logged and skipped without touching the
aggregator. -/
theorem short_record_handling (data : List Nat) (nm : NetworkMonitor)
    (eventCount now : Nat) :
    (ParseNetworkEvent data = none → data.length < 75) ∧
    (75 ≤ data.length → (ParseNetworkEvent data).isSome = true) ∧
    (data.length < 75 →
      ingestRecord nm eventCount data now = (nm, eventCount + 1, true)) := by
  refine ⟨?_, ?_, ?_⟩
  · intro h
    rw [ParseNetworkEvent] at h
    by_cases hl : data.length < 43
    · omega
    · rw [if_neg hl] at h; exact absurd h (by simp)
  · intro h
    rw [ParseNetworkEvent, if_neg (by omega)]
    rfl
  · intro h
    rw [ingestRecord, if_pos h]

/-- Witness for C8: a 10-byte record is skipped with the count bumped. -/
theorem short_record_handling_witness :
    ingestRecord initialMonitor 0 (List.replicate 10 0) 0 =
      (initialMonitor, 1, true) :=
  (short_record_handling (List.replicate 10 0) initialMonitor 0 0).2.2
    (by decide)

/-- C9 counterexample: on the payload consisting of exactly "GET " and 28
zero bytes, the extracted path is NOT empty — `strings.Fields` does not
treat the NUL bytes as whitespace, so the 28 NUL bytes form a second field
and `GetL7Info` returns "GET " followed by them rather than the bare
method. -/
theorem http_get_empty_path_counterexample :
    classifyHTTPTraffic getOnlyPayload = TrafficHTTPGET ∧
    (InspectHTTP getOnlyPayload).2 ≠ "" ∧
    GetL7Info { zeroEvent with eventType := 6, l7Payload := getOnlyPayload }
      ≠ "GET" := by decide

/-- C9 amended: an HTTP event whose payload is exactly "GET " followed by
zero bytes classifies as HTTP_GET, but its extracted path is the run of 28
NUL bytes (non-empty), and the l7 info is the method, a space, and that
path — i.e. the original payload string. -/
theorem http_get_nul_path_amended (evt : NetworkEvent)
    (h6 : evt.eventType = 6) (hp : evt.l7Payload = getOnlyPayload) :
    classifyHTTPTraffic evt.l7Payload = TrafficHTTPGET ∧
    InspectHTTP evt.l7Payload = ("GET", bytesToString (List.replicate 28 0)) ∧
    GetL7Info evt = bytesToString getOnlyPayload := by
  have hG : GetL7Info evt =
      (if (InspectHTTP evt.l7Payload).1 ≠ "" then
        (if (InspectHTTP evt.l7Payload).2 ≠ "" then
          (InspectHTTP evt.l7Payload).1 ++ " " ++ (InspectHTTP evt.l7Payload).2
        else (InspectHTTP evt.l7Payload).1)
      else "") := by
    obtain ⟨t, f2, f3, f4, f5, f6, f7, f8, f9, f10, f11, f12, f13, f14, pl⟩ :=
      evt
    simp only at h6
    subst h6
    rfl
  rw [hp] at hG
  refine ⟨?_, ?_, ?_⟩
  · rw [hp]; decide
  · rw [hp]; decide
  · rw [hG]; decide

/-- Witness for C9: the amended statement at the concrete event. -/
theorem http_get_nul_path_witness :
    GetL7Info { zeroEvent with eventType := 6, l7Payload := getOnlyPayload } =
      bytesToString getOnlyPayload :=
  (http_get_nul_path_amended
    { zeroEvent with eventType := 6, l7Payload := getOnlyPayload }
    rfl rfl).2.2

/-- C4 counterexample: ingesting the WireEvent parsed from the 75-byte
all-zero buffer does NOT leave the aggregator unchanged: `total_packets` is
incremented, a device record is created under 00:00:00:00:00:00, and both a
new-pattern and a new-device notification are attempted. -/
theorem zero_event_rejection_counterexample :
    ParseNetworkEvent (List.replicate 75 0) = some zeroEvent ∧
    (TrackEvent initialMonitor zeroEvent 0).monitor.stats.totalPackets =
      initialMonitor.stats.totalPackets + 1 ∧
    ((TrackEvent initialMonitor zeroEvent 0).monitor.cache.lookup
      "00:00:00:00:00:00").isSome = true ∧
    (TrackEvent initialMonitor zeroEvent 0).patternMsgs ≠ [] ∧
    (TrackEvent initialMonitor zeroEvent 0).deviceMsgs ≠ [] := by decide

/-- C4 amended: an event whose type is 0 (outside every known family) still
increments `total_packets` — and only that global counter — and still
creates or updates the device record for its source MAC. -/
theorem zero_event_amended (nm : NetworkMonitor) (evt : NetworkEvent)
    (now : Nat) (h0 : evt.eventType = 0) (hcap : 1 ≤ nm.cacheSize) :
    (TrackEvent nm evt now).monitor.stats =
      { nm.stats with totalPackets := nm.stats.totalPackets + 1 } ∧
    ((TrackEvent nm evt now).monitor.cache.lookup
      (MacToString evt.srcMac)).isSome = true := by
  constructor
  · simp [TrackEvent, h0, bumpFamilyStats]
  · simp only [TrackEvent]
    rw [lruAdd_lookup_self _ _ _ _ hcap]
    rfl

/-- Witness for C4: the amended statement at the zero event. -/
theorem zero_event_amended_witness :
    (TrackEvent initialMonitor zeroEvent 0).monitor.stats =
      { initialMonitor.stats with
          totalPackets := initialMonitor.stats.totalPackets + 1 } ∧
    ((TrackEvent initialMonitor zeroEvent 0).monitor.cache.lookup
      (MacToString zeroEvent.srcMac)).isSome = true :=
  zero_event_amended initialMonitor zeroEvent 0 rfl (by decide)

/-- C6 counterexample: for a DNS query event the computed service label is
the constant "DNS" while the traffic-type string is "DNS_QUERY"; the service
label is not the traffic-type string. -/
theorem service_label_counterexample :
    (classifyEvent loadServiceDatabase dnsQueryEvent "192.168.0.9"
      "8.8.8.8").service = "DNS" ∧
    (classifyEvent loadServiceDatabase dnsQueryEvent "192.168.0.9"
      "8.8.8.8").trafficType = "DNS_QUERY" ∧
    ("DNS" : String) ≠ "DNS_QUERY" := by decide

/-- C6 amended: for TCP/UDP events the service label is the static table
entry when it exists with a matching or BOTH protocol and otherwise
"<PROTO>/<port>"; for ARP and ICMP events it is the traffic-type string; for
DNS, HTTP and TLS events it is the constant protocol name "DNS" / "HTTP" /
"TLS" (not the traffic-type string). -/
theorem service_label_amended (db : List (Nat × ServiceInfo))
    (evt : NetworkEvent) (srcIP dstIP : String) :
    ((evt.eventType = 1 ∨ evt.eventType = 4) →
      (classifyEvent db evt srcIP dstIP).service =
        (classifyEvent db evt srcIP dstIP).trafficType) ∧
    (evt.eventType = 2 →
      (classifyEvent db evt srcIP dstIP).service =
        getServiceName db evt.dstPort "TCP") ∧
    (evt.eventType = 3 →
      (classifyEvent db evt srcIP dstIP).service =
        getServiceName db evt.dstPort "UDP") ∧
    (evt.eventType = 5 → (classifyEvent db evt srcIP dstIP).service = "DNS") ∧
    (evt.eventType = 6 → (classifyEvent db evt srcIP dstIP).service = "HTTP") ∧
    (evt.eventType = 7 → (classifyEvent db evt srcIP dstIP).service = "TLS") ∧
    (∀ port protocol,
      (∃ svc, db.lookup port = some svc ∧
        (svc.protocol = protocol ∨ svc.protocol = "BOTH") ∧
        getServiceName db port protocol = svc.service) ∨
      getServiceName db port protocol = protocol ++ "/" ++ Nat.repr port) := by
  refine ⟨?_, ?_, ?_, ?_, ?_, ?_, ?_⟩
  · rintro (h | h) <;> simp [classifyEvent, h]
  · intro h; simp [classifyEvent, h]
  · intro h; simp [classifyEvent, h]
  · intro h; simp [classifyEvent, h]
  · intro h; simp [classifyEvent, h]
  · intro h; simp [classifyEvent, h]
  · intro port protocol
    rw [getServiceName]
    cases hdb : db.lookup port with
    | none => exact Or.inr rfl
    | some svc =>
      by_cases hpr : svc.protocol = protocol ∨ svc.protocol = "BOTH"
      · refine Or.inl ⟨svc, rfl, hpr, ?_⟩
        show (if svc.protocol = protocol ∨ svc.protocol = "BOTH" then
          svc.service else protocol ++ "/" ++ Nat.repr port) = svc.service
        rw [if_pos hpr]
      · refine Or.inr ?_
        show (if svc.protocol = protocol ∨ svc.protocol = "BOTH" then
          svc.service else protocol ++ "/" ++ Nat.repr port) =
          protocol ++ "/" ++ Nat.repr port
        rw [if_neg hpr]

/-- Witness for C6: the amended statement at a DNS event and at a TCP port
present in the table. -/
theorem service_label_amended_witness :
    (classifyEvent loadServiceDatabase dnsQueryEvent "192.168.0.9"
      "8.8.8.8").service = "DNS" ∧
    getServiceName loadServiceDatabase 443 "TCP" = "HTTPS" :=
  ⟨(service_label_amended loadServiceDatabase dnsQueryEvent "192.168.0.9"
      "8.8.8.8").2.2.2.1 rfl, by decide⟩

/-! ### Preservation lemmas for the device-update chain -/

theorem updateIdent_seen (d : DeviceInfo) (srcIP : String) (now : Nat) :
    (updateIdent d srcIP now).seenPatterns = d.seenPatterns := rfl

theorem updateIdent_targets (d : DeviceInfo) (srcIP : String) (now : Nat) :
    (updateIdent d srcIP now).targets = d.targets := rfl

theorem updateIdent_tlsSNIs (d : DeviceInfo) (srcIP : String) (now : Nat) :
    (updateIdent d srcIP now).tlsSNIs = d.tlsSNIs := rfl

theorem updateIdent_tlsConnections (d : DeviceInfo) (srcIP : String)
    (now : Nat) : (updateIdent d srcIP now).tlsConnections =
      d.tlsConnections := rfl

theorem bumpTagService_seen (d : DeviceInfo) (cls : EventClass) :
    (bumpTagService d cls).seenPatterns = d.seenPatterns := rfl

theorem bumpTagService_targets (d : DeviceInfo) (cls : EventClass) :
    (bumpTagService d cls).targets = d.targets := rfl

theorem bumpTagService_tlsSNIs (d : DeviceInfo) (cls : EventClass) :
    (bumpTagService d cls).tlsSNIs = d.tlsSNIs := rfl

theorem bumpTagService_tlsConnections (d : DeviceInfo) (cls : EventClass) :
    (bumpTagService d cls).tlsConnections = d.tlsConnections := rfl

theorem bumpL7_seen (d : DeviceInfo) (evt : NetworkEvent)
    (cls : EventClass) : (bumpL7 d evt cls).seenPatterns = d.seenPatterns := by
  unfold bumpL7
  repeat' split
  all_goals rfl

theorem bumpL7_targets (d : DeviceInfo) (evt : NetworkEvent)
    (cls : EventClass) : (bumpL7 d evt cls).targets = d.targets := by
  unfold bumpL7
  repeat' split
  all_goals rfl

theorem bumpL7_tls (d : DeviceInfo) (evt : NetworkEvent) (cls : EventClass)
    (h7 : evt.eventType = 7) :
    (bumpL7 d evt cls).tlsSNIs =
      (if cls.l7Info ≠ "" then bump d.tlsSNIs cls.l7Info else d.tlsSNIs) ∧
    (bumpL7 d evt cls).tlsConnections =
      (if cls.l7Info ≠ "" then d.tlsConnections + 1
       else d.tlsConnections) := by
  unfold bumpL7
  by_cases h : cls.l7Info ≠ ""
  · rw [if_pos h, if_pos h, if_pos h,
      if_neg (by rw [h7]; decide), if_neg (by rw [h7]; decide),
      if_pos h7]
    exact ⟨rfl, rfl⟩
  · rw [if_neg h, if_neg h, if_neg h]
    exact ⟨rfl, rfl⟩

theorem bumpProtoCounters_seen (d : DeviceInfo) (evt : NetworkEvent) :
    (bumpProtoCounters d evt).seenPatterns = d.seenPatterns := by
  unfold bumpProtoCounters
  repeat' split
  all_goals rfl

theorem bumpProtoCounters_targets (d : DeviceInfo) (evt : NetworkEvent) :
    (bumpProtoCounters d evt).targets = d.targets := by
  unfold bumpProtoCounters
  repeat' split
  all_goals rfl

theorem bumpProtoCounters_tlsSNIs (d : DeviceInfo) (evt : NetworkEvent) :
    (bumpProtoCounters d evt).tlsSNIs = d.tlsSNIs := by
  unfold bumpProtoCounters
  repeat' split
  all_goals rfl

theorem bumpProtoCounters_tlsConnections (d : DeviceInfo)
    (evt : NetworkEvent) :
    (bumpProtoCounters d evt).tlsConnections = d.tlsConnections := by
  unfold bumpProtoCounters
  repeat' split
  all_goals rfl

theorem chain_seen (d : DeviceInfo) (evt : NetworkEvent) (cls : EventClass)
    (srcIP : String) (now : Nat) :
    (bumpProtoCounters (bumpL7 (bumpTagService (updateIdent d srcIP now) cls)
      evt cls) evt).seenPatterns = d.seenPatterns := by
  rw [bumpProtoCounters_seen, bumpL7_seen, bumpTagService_seen,
    updateIdent_seen]

theorem chain_targets (d : DeviceInfo) (evt : NetworkEvent)
    (cls : EventClass) (srcIP : String) (now : Nat) :
    (bumpProtoCounters (bumpL7 (bumpTagService (updateIdent d srcIP now) cls)
      evt cls) evt).targets = d.targets := by
  rw [bumpProtoCounters_targets, bumpL7_targets, bumpTagService_targets,
    updateIdent_targets]

theorem updateTargets_seen (d : DeviceInfo) (dstIP : String) :
    (updateTargets d dstIP).seenPatterns = d.seenPatterns := by
  unfold updateTargets
  repeat' split
  all_goals rfl

theorem updateTargets_targets (d : DeviceInfo) (dstIP : String) :
    (updateTargets d dstIP).targets =
      (if dstIP ≠ "0.0.0.0" ∧ ¬ Contains d.targets dstIP then
        (if 20 < (d.targets ++ [dstIP]).length then
          (d.targets ++ [dstIP]).drop 1
        else d.targets ++ [dstIP])
      else d.targets) := by
  unfold updateTargets
  repeat' split
  all_goals rfl

theorem applyPattern_targets (d : DeviceInfo) (evt : NetworkEvent)
    (cls : EventClass) (srcMAC srcIP dstIP : String) (now : Nat) :
    ((applyPattern d evt cls srcMAC srcIP dstIP now).1).targets =
      d.targets := by
  unfold applyPattern
  repeat' split
  all_goals rfl

theorem applyPattern_seen_spec (d : DeviceInfo) (evt : NetworkEvent)
    (cls : EventClass) (srcMAC srcIP dstIP : String) (now : Nat) :
    (patternKeyOf cls.protocol srcIP dstIP evt.dstPort cls.trafficType ∈
        d.seenPatterns →
      applyPattern d evt cls srcMAC srcIP dstIP now =
        (d, ([] : List CommunicationPattern))) ∧
    (patternKeyOf cls.protocol srcIP dstIP evt.dstPort cls.trafficType ∉
        d.seenPatterns →
      applyPattern d evt cls srcMAC srcIP dstIP now =
        ({ d with seenPatterns := d.seenPatterns ++
            [patternKeyOf cls.protocol srcIP dstIP evt.dstPort
              cls.trafficType] },
          [{ srcMAC := srcMAC, srcIP := srcIP, dstIP := dstIP,
             dstPort := evt.dstPort, protocol := cls.protocol,
             trafficType := cls.trafficType, service := cls.service,
             timestamp := now, l7Info := cls.l7Info }])) := by
  constructor
  · intro h
    unfold applyPattern
    rw [if_pos (List.elem_iff.mpr h)]
  · intro h
    unfold applyPattern
    rw [if_neg (fun hc => h (List.elem_iff.mp hc))]

theorem trackEvent_parts (nm : NetworkMonitor) (evt : NetworkEvent)
    (now : Nat) :
    (TrackEvent nm evt now).monitor.cache =
      lruAdd nm.cache (MacToString evt.srcMac)
        (updateDevice
          (lookupDevice nm (MacToString evt.srcMac)
            (intToIPString evt.srcIP) now).1 evt
          (classifyEvent nm.serviceDB evt (intToIPString evt.srcIP)
            (intToIPString evt.dstIP))
          (MacToString evt.srcMac) (intToIPString evt.srcIP)
          (intToIPString evt.dstIP) now).1 nm.cacheSize ∧
    (TrackEvent nm evt now).patternMsgs =
      (updateDevice
        (lookupDevice nm (MacToString evt.srcMac)
          (intToIPString evt.srcIP) now).1 evt
        (classifyEvent nm.serviceDB evt (intToIPString evt.srcIP)
          (intToIPString evt.dstIP))
        (MacToString evt.srcMac) (intToIPString evt.srcIP)
        (intToIPString evt.dstIP) now).2 :=
  ⟨rfl, rfl⟩

theorem updateDevice_targets (d : DeviceInfo) (evt : NetworkEvent)
    (cls : EventClass) (srcMAC srcIP dstIP : String) (now : Nat) :
    ((updateDevice d evt cls srcMAC srcIP dstIP now).1).targets =
      (if dstIP ≠ "0.0.0.0" ∧ ¬ Contains d.targets dstIP then
        (if 20 < (d.targets ++ [dstIP]).length then
          (d.targets ++ [dstIP]).drop 1
        else d.targets ++ [dstIP])
      else d.targets) := by
  unfold updateDevice
  rw [applyPattern_targets, updateTargets_targets, chain_targets]

theorem drop_one_append (l : List String) (x : String) (h : l ≠ []) :
    (l ++ [x]).drop 1 = l.drop 1 ++ [x] := by
  cases l with
  | nil => exact absurd rfl h
  | cons a t => rfl

/-- C3. Recent-targets invariant: after any ingested event the tracked
device's recent-target list is still duplicate-free, at most 20 long and
free of the zero address; a zero destination is never appended; and at the
cap of 20 the oldest entry is evicted first. -/
theorem trackEvent_targets_invariant (nm : NetworkMonitor)
    (evt : NetworkEvent) (now : Nat) (d : DeviceInfo)
    (hd : (lookupDevice nm (MacToString evt.srcMac)
      (intToIPString evt.srcIP) now).1 = d)
    (hinv : TargetsInv d.targets) (hcap : 1 ≤ nm.cacheSize) :
    ∃ d2, (TrackEvent nm evt now).monitor.cache.lookup
        (MacToString evt.srcMac) = some d2 ∧
      TargetsInv d2.targets ∧
      (intToIPString evt.dstIP = "0.0.0.0" → d2.targets = d.targets) ∧
      (d.targets.length = 20 → intToIPString evt.dstIP ≠ "0.0.0.0" →
        intToIPString evt.dstIP ∉ d.targets →
        d2.targets = d.targets.drop 1 ++ [intToIPString evt.dstIP]) := by
  obtain ⟨hnd, hlen, hzero⟩ := hinv
  refine ⟨_, by
    rw [(trackEvent_parts nm evt now).1, hd]
    exact lruAdd_lookup_self _ _ _ _ hcap, ?_, ?_, ?_⟩
  · rw [updateDevice_targets]
    by_cases hg : intToIPString evt.dstIP ≠ "0.0.0.0" ∧
        ¬ Contains d.targets (intToIPString evt.dstIP)
    · rw [if_pos hg]
      have hmem : intToIPString evt.dstIP ∉ d.targets := by
        intro hm
        exact hg.2 (List.elem_iff.mpr hm)
      have hnd2 : (d.targets ++ [intToIPString evt.dstIP]).Nodup := by
        simp [List.nodup_append, hnd, hmem]
      have hz2 : "0.0.0.0" ∉ d.targets ++ [intToIPString evt.dstIP] := by
        intro hm
        rcases List.mem_append.mp hm with hm | hm
        · exact hzero hm
        · simp at hm
          exact hg.1 hm.symm
      by_cases hl : 20 < (d.targets ++ [intToIPString evt.dstIP]).length
      · rw [if_pos hl]
        refine ⟨hnd2.sublist (List.drop_sublist 1 _), ?_, ?_⟩
        · simp at hl ⊢
          omega
        · intro hm
          exact hz2 (List.mem_of_mem_drop hm)
      · rw [if_neg hl]
        simp at hl
        exact ⟨hnd2, by simp; omega, hz2⟩
    · rw [if_neg hg]
      exact ⟨hnd, hlen, hzero⟩
  · intro hz
    rw [updateDevice_targets, if_neg (by simp [hz])]
  · intro h20 hz hmem
    rw [updateDevice_targets,
      if_pos ⟨hz, fun hc => hmem (List.elem_iff.mp hc)⟩,
      if_pos (by simp [h20]),
      drop_one_append _ _ (by intro he; rw [he] at h20; simp at h20)]

/-- Witness for C3: the concrete TCP HTTPS SYN ingested into the fresh
monitor. -/
theorem trackEvent_targets_invariant_witness :
    ∃ d2, (TrackEvent initialMonitor sampleEvent 0).monitor.cache.lookup
        (MacToString sampleEvent.srcMac) = some d2 ∧
      TargetsInv d2.targets ∧
      (intToIPString sampleEvent.dstIP = "0.0.0.0" →
        d2.targets = (lookupDevice initialMonitor
          (MacToString sampleEvent.srcMac)
          (intToIPString sampleEvent.srcIP) 0).1.targets) ∧
      ((lookupDevice initialMonitor (MacToString sampleEvent.srcMac)
          (intToIPString sampleEvent.srcIP) 0).1.targets.length = 20 →
        intToIPString sampleEvent.dstIP ≠ "0.0.0.0" →
        intToIPString sampleEvent.dstIP ∉ (lookupDevice initialMonitor
          (MacToString sampleEvent.srcMac)
          (intToIPString sampleEvent.srcIP) 0).1.targets →
        d2.targets = (lookupDevice initialMonitor
          (MacToString sampleEvent.srcMac)
          (intToIPString sampleEvent.srcIP) 0).1.targets.drop 1 ++
          [intToIPString sampleEvent.dstIP]) :=
  trackEvent_targets_invariant initialMonitor sampleEvent 0 _ rfl
    (by decide) (by decide)

theorem updateTargets_tlsSNIs (d : DeviceInfo) (dstIP : String) :
    (updateTargets d dstIP).tlsSNIs = d.tlsSNIs := by
  unfold updateTargets
  repeat' split
  all_goals rfl

theorem updateTargets_tlsConnections (d : DeviceInfo) (dstIP : String) :
    (updateTargets d dstIP).tlsConnections = d.tlsConnections := by
  unfold updateTargets
  repeat' split
  all_goals rfl

theorem applyPattern_tlsSNIs (d : DeviceInfo) (evt : NetworkEvent)
    (cls : EventClass) (srcMAC srcIP dstIP : String) (now : Nat) :
    ((applyPattern d evt cls srcMAC srcIP dstIP now).1).tlsSNIs =
      d.tlsSNIs := by
  unfold applyPattern
  repeat' split
  all_goals rfl

theorem applyPattern_tlsConnections (d : DeviceInfo) (evt : NetworkEvent)
    (cls : EventClass) (srcMAC srcIP dstIP : String) (now : Nat) :
    ((applyPattern d evt cls srcMAC srcIP dstIP now).1).tlsConnections =
      d.tlsConnections := by
  unfold applyPattern
  repeat' split
  all_goals rfl

theorem bump_keys (m : List (String × Nat)) (k s : String)
    (hm : ∀ p ∈ m, p.1 = s) (hk : k = s) : ∀ p ∈ bump m k, p.1 = s := by
  induction m with
  | nil =>
    intro p hp
    rw [bump] at hp
    simp at hp
    rw [hp, hk]
  | cons a t ih =>
    rcases a with ⟨k0, v0⟩
    intro p hp
    rw [bump] at hp
    by_cases ha : k0 = k
    · rw [if_pos ha] at hp
      rcases List.mem_cons.mp hp with hp | hp
      · rw [hp]; simpa [ha] using hk
      · exact hm p (List.mem_cons_of_mem _ hp)
    · rw [if_neg ha] at hp
      rcases List.mem_cons.mp hp with hp | hp
      · rw [hp]; exact hm ⟨k0, v0⟩ (List.mem_cons_self _ _)
      · exact ih (fun q hq => hm q (List.mem_cons_of_mem _ hq)) p hp

theorem updateDevice_tls (d : DeviceInfo) (evt : NetworkEvent)
    (cls : EventClass) (srcMAC srcIP dstIP : String) (now : Nat)
    (h7 : evt.eventType = 7) :
    ((updateDevice d evt cls srcMAC srcIP dstIP now).1).tlsConnections =
      d.tlsConnections + (if cls.l7Info ≠ "" then 1 else 0) ∧
    ((updateDevice d evt cls srcMAC srcIP dstIP now).1).tlsSNIs =
      (if cls.l7Info ≠ "" then bump d.tlsSNIs cls.l7Info
       else d.tlsSNIs) := by
  obtain ⟨hS, hC⟩ :=
    bumpL7_tls (bumpTagService (updateIdent d srcIP now) cls) evt cls h7
  constructor
  · unfold updateDevice
    rw [applyPattern_tlsConnections, updateTargets_tlsConnections,
      bumpProtoCounters_tlsConnections, hC, bumpTagService_tlsConnections,
      updateIdent_tlsConnections]
    by_cases hl : cls.l7Info ≠ "" <;> simp [hl]
  · unfold updateDevice
    rw [applyPattern_tlsSNIs, updateTargets_tlsSNIs,
      bumpProtoCounters_tlsSNIs, hS, bumpTagService_tlsSNIs,
      updateIdent_tlsSNIs]

theorem getL7Info_tls (evt : NetworkEvent) (h7 : evt.eventType = 7) :
    GetL7Info evt = InspectTLS evt.l7Payload := by
  obtain ⟨t, f2, f3, f4, f5, f6, f7, f8, f9, f10, f11, f12, f13, f14, pl⟩ :=
    evt
  simp only at h7
  subst h7
  rfl

theorem classifyEvent_tls (db : List (Nat × ServiceInfo))
    (evt : NetworkEvent) (srcIP dstIP : String) (h7 : evt.eventType = 7) :
    classifyEvent db evt srcIP dstIP =
      ⟨classifyTLSTraffic evt.l7Payload, "TLS", "TLS", GetL7Info evt⟩ := by
  obtain ⟨t, f2, f3, f4, f5, f6, f7, f8, f9, f10, f11, f12, f13, f14, pl⟩ :=
    evt
  simp only at h7
  subst h7
  rfl

theorem inspectTLS_eq (payload : List Nat) (hlen : payload.length = 32) :
    InspectTLS payload = (if payload.getD 0 0 = 22 then "TLS" else "") := by
  unfold InspectTLS
  rw [if_neg (by omega)]
  by_cases hb : payload.getD 0 0 = 22
  · rw [if_neg (by simpa using hb), if_pos hb]
  · rw [if_pos (by simpa using hb), if_neg hb]

/-- C10. TLS l7 info is a constant: for a TLS event `GetL7Info` returns the
literal "TLS" exactly when payload byte 0 is 0x16 and "" otherwise (no SNI
is extracted); consequently a device whose tls_snis keys are all "TLS" keeps
that property, and tls_connections is bumped by one exactly when the payload
starts with 0x16. -/
theorem tls_l7_constant (nm : NetworkMonitor) (evt : NetworkEvent)
    (now : Nat) (d : DeviceInfo) (h7 : evt.eventType = 7)
    (hlen : evt.l7Payload.length = 32)
    (hd : (lookupDevice nm (MacToString evt.srcMac)
      (intToIPString evt.srcIP) now).1 = d)
    (hsni : ∀ p ∈ d.tlsSNIs, p.1 = "TLS") (hcap : 1 ≤ nm.cacheSize) :
    GetL7Info evt = (if evt.l7Payload.getD 0 0 = 22 then "TLS" else "") ∧
    ∃ d2, (TrackEvent nm evt now).monitor.cache.lookup
        (MacToString evt.srcMac) = some d2 ∧
      d2.tlsConnections = d.tlsConnections +
        (if evt.l7Payload.getD 0 0 = 22 then 1 else 0) ∧
      (∀ p ∈ d2.tlsSNIs, p.1 = "TLS") := by
  have hG : GetL7Info evt =
      (if evt.l7Payload.getD 0 0 = 22 then "TLS" else "") := by
    rw [getL7Info_tls evt h7, inspectTLS_eq evt.l7Payload hlen]
  have hcls := classifyEvent_tls nm.serviceDB evt (intToIPString evt.srcIP)
    (intToIPString evt.dstIP) h7
  refine ⟨hG, _, by
    rw [(trackEvent_parts nm evt now).1, hd]
    exact lruAdd_lookup_self _ _ _ _ hcap, ?_, ?_⟩
  · obtain ⟨hC, _⟩ := updateDevice_tls d evt
      (classifyEvent nm.serviceDB evt (intToIPString evt.srcIP)
        (intToIPString evt.dstIP))
      (MacToString evt.srcMac) (intToIPString evt.srcIP)
      (intToIPString evt.dstIP) now h7
    rw [hC, hcls, hG]
    show d.tlsConnections +
        (if (if evt.l7Payload.getD 0 0 = 22 then "TLS" else "") ≠ "" then 1
         else 0) =
      d.tlsConnections + (if evt.l7Payload.getD 0 0 = 22 then 1 else 0)
    by_cases hb : evt.l7Payload.getD 0 0 = 22 <;> simp [hb]
  · obtain ⟨_, hS⟩ := updateDevice_tls d evt
      (classifyEvent nm.serviceDB evt (intToIPString evt.srcIP)
        (intToIPString evt.dstIP))
      (MacToString evt.srcMac) (intToIPString evt.srcIP)
      (intToIPString evt.dstIP) now h7
    rw [hS, hcls, hG]
    show ∀ p ∈ (if (if evt.l7Payload.getD 0 0 = 22 then "TLS" else "") ≠ ""
        then bump d.tlsSNIs
          (if evt.l7Payload.getD 0 0 = 22 then "TLS" else "")
        else d.tlsSNIs), p.1 = "TLS"
    by_cases hb : evt.l7Payload.getD 0 0 = 22
    · rw [if_pos hb, if_pos (show ("TLS" : String) ≠ "" by decide)]
      exact bump_keys d.tlsSNIs "TLS" "TLS" hsni rfl
    · rw [if_neg hb, if_neg (show ¬(("" : String) ≠ "") by decide)]
      exact hsni

/-- Witness for C10: a TLS event with a handshake-typed payload on the fresh
monitor holding a freshly created device. -/
theorem tls_l7_constant_witness :
    GetL7Info tlsHelloEvent =
      (if tlsHelloEvent.l7Payload.getD 0 0 = 22 then "TLS" else "") ∧
    ∃ d2, (TrackEvent initialMonitor tlsHelloEvent 0).monitor.cache.lookup
        (MacToString tlsHelloEvent.srcMac) = some d2 ∧
      d2.tlsConnections = (lookupDevice initialMonitor
          (MacToString tlsHelloEvent.srcMac)
          (intToIPString tlsHelloEvent.srcIP) 0).1.tlsConnections +
        (if tlsHelloEvent.l7Payload.getD 0 0 = 22 then 1 else 0) ∧
      (∀ p ∈ d2.tlsSNIs, p.1 = "TLS") :=
  tls_l7_constant initialMonitor tlsHelloEvent 0 _ rfl (by decide) rfl
    (by decide) (by decide)

theorem countKeyMsgs_append (a b : List CommunicationPattern)
    (m k : String) :
    countKeyMsgs (a ++ b) m k = countKeyMsgs a m k + countKeyMsgs b m k := by
  simp [countKeyMsgs, List.filter_append]

theorem lookupDevice_cache_hit (nm : NetworkMonitor) (srcMAC srcIP : String)
    (now : Nat) (d : DeviceInfo) (hd : nm.cache.lookup srcMAC = some d) :
    (lookupDevice nm srcMAC srcIP now).1 = d := by
  unfold lookupDevice
  rw [hd]

theorem trackEvent_cacheSize (nm : NetworkMonitor) (evt : NetworkEvent)
    (now : Nat) : (TrackEvent nm evt now).monitor.cacheSize = nm.cacheSize :=
  rfl

theorem trackEvent_cache_length (nm : NetworkMonitor) (evt : NetworkEvent)
    (now : Nat) :
    (TrackEvent nm evt now).monitor.cache.length ≤ nm.cache.length + 1 := by
  rw [(trackEvent_parts nm evt now).1]
  exact lruAdd_length_le _ _ _ _

theorem updateDevice_seen_spec (d0 : DeviceInfo) (evt : NetworkEvent)
    (cls : EventClass) (srcMAC srcIP dstIP : String) (now : Nat) :
    (patternKeyOf cls.protocol srcIP dstIP evt.dstPort cls.trafficType ∈
        d0.seenPatterns →
      (updateDevice d0 evt cls srcMAC srcIP dstIP now).2 = [] ∧
      ((updateDevice d0 evt cls srcMAC srcIP dstIP now).1).seenPatterns =
        d0.seenPatterns) ∧
    (patternKeyOf cls.protocol srcIP dstIP evt.dstPort cls.trafficType ∉
        d0.seenPatterns →
      ((updateDevice d0 evt cls srcMAC srcIP dstIP now).1).seenPatterns =
        d0.seenPatterns ++
          [patternKeyOf cls.protocol srcIP dstIP evt.dstPort
            cls.trafficType] ∧
      ∃ p, (updateDevice d0 evt cls srcMAC srcIP dstIP now).2 = [p] ∧
        p.srcMAC = srcMAC ∧
        msgPatternKey p =
          patternKeyOf cls.protocol srcIP dstIP evt.dstPort
            cls.trafficType) := by
  have hseq : (updateTargets (bumpProtoCounters (bumpL7 (bumpTagService
      (updateIdent d0 srcIP now) cls) evt cls) evt) dstIP).seenPatterns =
      d0.seenPatterns := by
    rw [updateTargets_seen, chain_seen]
  obtain ⟨hpos, hneg⟩ := applyPattern_seen_spec
    (updateTargets (bumpProtoCounters (bumpL7 (bumpTagService
      (updateIdent d0 srcIP now) cls) evt cls) evt) dstIP)
    evt cls srcMAC srcIP dstIP now
  constructor
  · intro hk
    have h := hpos (by rw [hseq]; exact hk)
    unfold updateDevice
    rw [h]
    exact ⟨rfl, hseq⟩
  · intro hk
    have h := hneg (by rw [hseq]; exact hk)
    unfold updateDevice
    rw [h]
    refine ⟨by rw [hseq], _, rfl, rfl, rfl⟩

theorem trackEvent_patInv (nm : NetworkMonitor) (evt : NetworkEvent)
    (now : Nat) (m k : String) (msgs : List CommunicationPattern)
    (hstep : nm.cache.length + 1 ≤ nm.cacheSize)
    (hinv : PatInv msgs nm.cache m k) :
    PatInv (msgs ++ (TrackEvent nm evt now).patternMsgs)
      (TrackEvent nm evt now).monitor.cache m k := by
  obtain ⟨hcnt, hwit⟩ := hinv
  have hparts := trackEvent_parts nm evt now
  set srcMAC := MacToString evt.srcMac with hsrc
  set srcIPs := intToIPString evt.srcIP with hsip
  set dstIPs := intToIPString evt.dstIP with hdip
  set cls := classifyEvent nm.serviceDB evt srcIPs dstIPs with hcls
  set d0 := (lookupDevice nm srcMAC srcIPs now).1 with hd0
  set du := updateDevice d0 evt cls srcMAC srcIPs dstIPs now with hdu
  set key := patternKeyOf cls.protocol srcIPs dstIPs evt.dstPort
    cls.trafficType with hkey
  have hel : (eraseKey nm.cache srcMAC).length + 1 ≤ nm.cacheSize := by
    have := eraseKey_length_le nm.cache srcMAC
    omega
  have hone : 1 ≤ nm.cacheSize := by omega
  have hspec := updateDevice_seen_spec d0 evt cls srcMAC srcIPs dstIPs now
  rw [← hdu, ← hkey] at hspec
  by_cases hk : key ∈ d0.seenPatterns
  · obtain ⟨h2, h1⟩ := hspec.1 hk
    constructor
    · rw [hparts.2, h2, List.append_nil]
      exact hcnt
    · intro hc
      rw [hparts.2, h2, List.append_nil] at hc
      obtain ⟨d, hd, hkd⟩ := hwit hc
      by_cases hm : m = srcMAC
      · refine ⟨du.1, ?_, ?_⟩
        · rw [hparts.1, hm]
          exact lruAdd_lookup_self _ _ _ _ hone
        · rw [h1, hd0,
            lookupDevice_cache_hit nm _ _ now d (by rw [← hm]; exact hd)]
          exact hkd
      · refine ⟨d, ?_, hkd⟩
        rw [hparts.1, lruAdd_lookup_ne _ _ _ _ m hm hel]
        exact hd
  · obtain ⟨h1, p, h2, hpmac, hpkey⟩ := hspec.2 hk
    by_cases hmk : m = srcMAC ∧ k = key
    · obtain ⟨hm, hkk⟩ := hmk
      have hcnt0 : countKeyMsgs msgs m k = 0 := by
        by_contra hne
        obtain ⟨d, hd, hkd⟩ := hwit (by omega)
        have hhit : d0 = d := by
          rw [hd0]
          exact lookupDevice_cache_hit nm _ _ now d (by rw [← hm]; exact hd)
        rw [← hkk] at hk
        rw [hhit] at hk
        exact hk hkd
      constructor
      · rw [hparts.2, h2, countKeyMsgs_append, hcnt0]
        have hpkey2 : patternKeyOf p.protocol p.srcIP p.dstIP p.dstPort
            p.trafficType = key := hpkey
        simp [countKeyMsgs, msgPatternKey, hpmac, hpkey2, hm, hkk]
      · intro _
        refine ⟨du.1, ?_, ?_⟩
        · rw [hparts.1, hm]
          exact lruAdd_lookup_self _ _ _ _ hone
        · rw [h1, hkk]
          exact List.mem_append_right _ (List.mem_singleton.mpr rfl)
    · have hpkey2 : patternKeyOf p.protocol p.srcIP p.dstIP p.dstPort
          p.trafficType = key := hpkey
      have hzero : countKeyMsgs [p] m k = 0 := by
        rcases not_and_or.mp hmk with h | h
        · simp [countKeyMsgs, msgPatternKey, hpmac, hpkey2]
          intro hmm
          exact absurd hmm.symm h
        · simp [countKeyMsgs, msgPatternKey, hpmac, hpkey2]
          intro _ hkk
          exact absurd hkk.symm h
      constructor
      · rw [hparts.2, h2, countKeyMsgs_append, hzero]
        omega
      · intro hc
        rw [hparts.2, h2, countKeyMsgs_append, hzero] at hc
        obtain ⟨d, hd, hkd⟩ := hwit (by omega)
        by_cases hm : m = srcMAC
        · refine ⟨du.1, ?_, ?_⟩
          · rw [hparts.1, hm]
            exact lruAdd_lookup_self _ _ _ _ hone
          · rw [h1]
            refine List.mem_append_left _ ?_
            rw [hd0,
              lookupDevice_cache_hit nm _ _ now d (by rw [← hm]; exact hd)]
            exact hkd
        · refine ⟨d, ?_, hkd⟩
          rw [hparts.1, lruAdd_lookup_ne _ _ _ _ m hm hel]
          exact hd

theorem runTrace_patInv (m k : String) :
    ∀ (events : List (NetworkEvent × Nat)) (nm : NetworkMonitor)
      (msgs : List CommunicationPattern),
      nm.cache.length + events.length ≤ nm.cacheSize →
      PatInv msgs nm.cache m k →
      PatInv (msgs ++ (runTrace nm events).2) (runTrace nm events).1.cache
        m k := by
  intro events
  induction events with
  | nil =>
    intro nm msgs hcap hinv
    simpa [runTrace] using hinv
  | cons et rest ih =>
    rcases et with ⟨e, t⟩
    intro nm msgs hcap hinv
    have hstep : nm.cache.length + 1 ≤ nm.cacheSize := by
      simp only [List.length_cons] at hcap
      omega
    have h1 := trackEvent_patInv nm e t m k msgs hstep hinv
    have hlen := trackEvent_cache_length nm e t
    have h2 := ih (TrackEvent nm e t).monitor
      (msgs ++ (TrackEvent nm e t).patternMsgs)
      (by
        rw [trackEvent_cacheSize]
        simp only [List.length_cons] at hcap
        omega) h1
    simpa [runTrace, List.append_assoc] using h2

/-- C2. Pattern idempotence: re-ingesting a pattern-identical event for a
cached device emits no new-pattern message and leaves `seen_patterns`
unchanged, and along any ingestion trace that never evicts, at most one
new-pattern message is attempted per (device, pattern-key) pair. -/
theorem trackEvent_pattern_idempotent (nm : NetworkMonitor)
    (evt : NetworkEvent) (now : Nat) (d : DeviceInfo)
    (events : List (NetworkEvent × Nat)) (m k : String)
    (hd : nm.cache.lookup (MacToString evt.srcMac) = some d)
    (hseen : eventPatternKey nm evt ∈ d.seenPatterns)
    (hlen : nm.cache.length ≤ nm.cacheSize)
    (hcap : nm.cache.length + events.length ≤ nm.cacheSize) :
    ((TrackEvent nm evt now).patternMsgs = [] ∧
     ∃ d2, (TrackEvent nm evt now).monitor.cache.lookup
         (MacToString evt.srcMac) = some d2 ∧
       d2.seenPatterns = d.seenPatterns) ∧
    countKeyMsgs (runTrace nm events).2 m k ≤ 1 := by
  constructor
  · have hd0 : (lookupDevice nm (MacToString evt.srcMac)
        (intToIPString evt.srcIP) now).1 = d :=
      lookupDevice_cache_hit nm _ _ now d hd
    obtain ⟨h2, h1⟩ := (updateDevice_seen_spec d evt
      (classifyEvent nm.serviceDB evt (intToIPString evt.srcIP)
        (intToIPString evt.dstIP))
      (MacToString evt.srcMac) (intToIPString evt.srcIP)
      (intToIPString evt.dstIP) now).1 hseen
    have hone : 1 ≤ nm.cacheSize := by
      cases hc : nm.cache with
      | nil => rw [hc] at hd; simp [List.lookup] at hd
      | cons a t => rw [hc] at hlen; simp at hlen; omega
    refine ⟨?_, _, ?_, h1⟩
    · rw [(trackEvent_parts nm evt now).2, hd0]
      exact h2
    · rw [(trackEvent_parts nm evt now).1, hd0]
      exact lruAdd_lookup_self _ _ _ _ hone
  · have h := runTrace_patInv m k events nm [] hcap
      ⟨by simp [countKeyMsgs], fun hc => absurd hc (by simp [countKeyMsgs])⟩
    simpa using h.1

/-- Witness for C2: re-ingesting the sample event into the state that has
already seen its pattern key. -/
theorem trackEvent_pattern_idempotent_witness :
    (TrackEvent monitorAfterSample sampleEvent 1).patternMsgs = [] ∧
    countKeyMsgs (runTrace monitorAfterSample []).2 "aa:bb:cc:dd:ee:ff"
      "TCP:192.168.0.9->8.8.8.8:443:TCP_HTTPS" ≤ 1 := by
  have h := trackEvent_pattern_idempotent monitorAfterSample sampleEvent 1 _
    [] "aa:bb:cc:dd:ee:ff" "TCP:192.168.0.9->8.8.8.8:443:TCP_HTTPS"
    rfl (by decide) (by decide) (by decide)
  exact ⟨h.1.1, h.2⟩

theorem filterMap_str_map (xs : List String) :
    List.filterMap
      ((fun x => match x with | Json.str s => some s | _ => none) ∘
        Json.str) xs = xs := by
  induction xs with
  | nil => rfl
  | cons a t ih => simpa [List.filterMap_cons, Function.comp] using ih

theorem filterMap_num_map (m : List (String × Nat)) :
    List.filterMap
      ((fun p => match p.2 with | Json.num n => some (p.1, n) | _ => none) ∘
        (fun p => (p.1, Json.num p.2))) m = m := by
  induction m with
  | nil => rfl
  | cons a t ih => simpa [List.filterMap_cons, Function.comp] using ih

/-- C7. Snapshot round-trip: a device record whose seen_patterns and
flow_stats are empty survives the snapshot worker's JSON serialisation and
the rehydration path's deserialisation unchanged. -/
theorem snapshot_roundtrip (d : DeviceInfo) (h1 : d.seenPatterns = [])
    (h2 : d.flowStats = []) :
    deserialiseDevice (serialiseDevice d) = d := by
  obtain ⟨mac, ip, vendor, fs, ls, rc, pc, tc, uc, ic, dq, hr, tls, tg, sv,
    dd, hh, ts, sp, tt, fl⟩ := d
  simp only at h1 h2
  subst h1
  subst h2
  by_cases h3 : dd = [] <;> by_cases h4 : hh = [] <;> by_cases h5 : ts = []
  all_goals
    simp [serialiseDevice, deserialiseDevice, jField, jStr, jNum, jStrList,
      jCounts, jStrArr, jCountObj, h3, h4, h5, List.lookup,
      filterMap_str_map, filterMap_num_map]

/-- Witness for C7: the round-trip evaluated at a concrete device. -/
theorem snapshot_roundtrip_witness :
    deserialiseDevice (serialiseDevice sampleSnapshotDevice) =
      sampleSnapshotDevice :=
  snapshot_roundtrip sampleSnapshotDevice rfl rfl

end Cerberus
